import Mathlib

/-!
# RuntimeMeshComponent scene proxy

A shallow embedding of `Source/RuntimeMeshComponent/Private/RuntimeMeshComponentProxy.cpp`
(`FRuntimeMeshSceneProxy`): construction of the per-section render-data table, the
render-thread resource step, the view-relevance query, the mesh-batch builder and
the static and dynamic submission loops.

Conventions of the embedding.

* A C++ pointer that the source tests or may find null is an `Option`.
* `TMap` is an insertion-ordered association list. `operator[]` of the engine map is
  the checked lookup (`FindChecked`): it does not insert, and a missing key is a failed
  assertion.
* An operation that can hit a failed assertion or a null dereference returns
  `Option`; `none` is that failure.
* The shared mesh proxy `RuntimeMesh` is a live object owned elsewhere; each
  operation receives its current state as an argument.
* Engine and sibling-module functions whose bodies are outside this file of the
  repository are fields of `Externals`, of the component, of the primitive base
  state, or of the section proxy.
-/

namespace RuntimeMesh

/-! ## Engine-side value types -/

/-- Section keys are `int32` in the source. -/
abbrev SectionId := Int

/-- A live `UMaterialInterface` object, identified by a number. -/
structure UMaterialInterface where
  Id : Nat
  deriving DecidableEq, Repr

/-- The identity of an `FVertexFactoryType`. -/
abbrev FVertexFactoryType := Nat

/-- The value of `ERHIFeatureLevel::Type`. -/
abbrev ERHIFeatureLevel := Nat

/-- An `FLinearColor` with exact components. -/
structure FLinearColor where
  R : ℚ
  G : ℚ
  B : ℚ
  deriving DecidableEq

/-- The render proxies this file creates or obtains: `ofMaterial M s` is the result of
`M->GetRenderProxy(s)`, and `colored Parent Color` is a fresh
`FColoredMaterialRenderProxy` whose parent is either null or `M->GetRenderProxy(s)`. -/
inductive FMaterialRenderProxy where
  | ofMaterial (Material : UMaterialInterface) (bSelected : Bool)
  | colored (Parent : Option (UMaterialInterface × Bool)) (Color : FLinearColor)
  deriving DecidableEq

/-- The call `Material->GetRenderProxy(bSelected)`. -/
def UMaterialInterface.GetRenderProxy (Material : UMaterialInterface) (bSelected : Bool) :
    FMaterialRenderProxy :=
  FMaterialRenderProxy.ofMaterial Material bSelected

/-- The show flags read by this file. -/
structure FEngineShowFlags where
  Wireframe : Bool
  Collision : Bool
  deriving DecidableEq, Repr

/-- A view family: its show flags, and the rest of its state as one number (what
`IsRichView` may look at besides the flags). -/
structure FSceneViewFamily where
  EngineShowFlags : FEngineShowFlags
  Rest : Nat
  deriving DecidableEq, Repr

/-- A scene view, with the family it points to. -/
structure FSceneView where
  Family : FSceneViewFamily
  Id : Nat
  deriving DecidableEq, Repr

/-- The value of `ECollisionTraceFlag`. -/
inductive ECollisionTraceFlag where
  | CTF_UseDefault
  | CTF_UseSimpleAndComplex
  | CTF_UseSimpleAsComplex
  | CTF_UseComplexAsSimple
  deriving DecidableEq, Repr

/-- The part of `UBodySetup` read by this file. -/
structure UBodySetup where
  CollisionTraceFlag : ECollisionTraceFlag
  deriving DecidableEq, Repr

/-! ## The engine map -/

/-- An insertion-ordered map, as the list of its pairs in iteration order. `Add` is the
only way this file grows a map, and it keeps the keys pairwise distinct. -/
structure TMap (K V : Type) where
  Pairs : List (K × V)

namespace TMap

variable {K V : Type}

/-- The empty map. -/
def empty : TMap K V := ⟨[]⟩

/-- The keys in iteration order. -/
def Keys (m : TMap K V) : List K := m.Pairs.map Prod.fst

/-- The number of elements. -/
def Num (m : TMap K V) : Nat := m.Pairs.length

/-- Lookup on the underlying list. -/
def findIn [DecidableEq K] (Key : K) : List (K × V) → Option V
  | [] => none
  | (k, v) :: rest => if k = Key then some v else findIn Key rest

/-- The unchecked lookup: `Find`, null when the key is absent. -/
def Find [DecidableEq K] (m : TMap K V) (Key : K) : Option V := findIn Key m.Pairs

/-- The membership test `Contains`. -/
def Contains [DecidableEq K] (m : TMap K V) (Key : K) : Bool := (m.Find Key).isSome

/-- The checked lookup `operator[]` (`FindChecked`): `none` is the failed assertion
on a missing key. -/
def FindChecked [DecidableEq K] (m : TMap K V) (Key : K) : Option V := m.Find Key

/-- Replace the value of `Key` where it stands, or append the pair at the end. -/
def addIn [DecidableEq K] (Key : K) (Value : V) : List (K × V) → List (K × V)
  | [] => [(Key, Value)]
  | (k, v) :: rest => if k = Key then (k, Value) :: rest else (k, v) :: addIn Key Value rest

/-- The insertion `Add`: an existing key keeps its place and gets the new value. -/
def Add [DecidableEq K] (m : TMap K V) (Key : K) (Value : V) : TMap K V :=
  ⟨addIn Key Value m.Pairs⟩

end TMap

/-! ## The mesh snapshot and its sections -/

/-- What this file reads of an `FRuntimeMeshSectionProxy`: the results of `ShouldRender()`,
`WantsToRenderInStaticPath()` and `GetVertexFactory()->GetType()`. -/
structure FRuntimeMeshSectionProxy where
  bShouldRender : Bool
  bWantsToRenderInStaticPath : Bool
  VertexFactoryType : FVertexFactoryType
  deriving DecidableEq, Repr

/-- A shared pointer to a section proxy; `none` is the pointer for which `IsValid()`
is false. -/
abbrev FRuntimeMeshSectionProxyPtr := Option FRuntimeMeshSectionProxy

/-- The render-side mesh proxy: the map returned by `GetSections()`, which holds at most
one pair per key. -/
structure FRuntimeMeshProxy where
  Sections : TMap SectionId FRuntimeMeshSectionProxyPtr
  keysNodup : (Sections.Pairs.map Prod.fst).Nodup

/-- The game-side `URuntimeMesh`: the array returned by `GetSectionIds()`. -/
structure URuntimeMesh where
  SectionIds : List SectionId

/-! ## Mesh batches and sinks -/

/-- The geometry reference a section puts into a batch: the section that filled the batch
and the adjacency request it received. -/
structure FGeometryRef where
  Section : FRuntimeMeshSectionProxy
  bWantsAdjacency : Bool
  deriving DecidableEq

/-- The fields of `FMeshBatch` written on the way through `CreateMeshBatch`. -/
structure FMeshBatch where
  Geometry : Option FGeometryRef
  bWireframe : Bool
  MaterialRenderProxy : Option FMaterialRenderProxy
  ReverseCulling : Bool
  bCanApplyViewModeOverrides : Bool
  PrimitiveUniformBufferResource : Option Nat
  deriving DecidableEq

/-- A default-constructed `FMeshBatch`. -/
def FMeshBatch.default : FMeshBatch :=
  { Geometry := none, bWireframe := false, MaterialRenderProxy := none,
    ReverseCulling := false, bCanApplyViewModeOverrides := false,
    PrimitiveUniformBufferResource := none }

/-- Modelled from the spec: `FRuntimeMeshSectionProxy::CreateMeshBatch`, the section
handle's batch-construction operation (`buildGeometryReference(wantsAdjacency)`), is
outside this file. The call `Section->CreateMeshBatch(MeshBatch, bWantsAdjacency)` is
kept as the geometry reference it leaves in the batch. -/
def FRuntimeMeshSectionProxy.CreateMeshBatch (Section : FRuntimeMeshSectionProxy)
    (MeshBatch : FMeshBatch) (bWantsAdjacency : Bool) : FMeshBatch :=
  { MeshBatch with Geometry := some ⟨Section, bWantsAdjacency⟩ }

/-- The second argument of `DrawMesh`. -/
inductive FScreenSize where
  | FLT_MAX
  | finite (Value : ℚ)
  deriving DecidableEq

/-- One `PDI->DrawMesh(MeshBatch, ScreenSize)` call. `SectionKey` is a label of the
embedding: the key of the snapshot entry the loop was visiting. -/
structure FStaticDraw where
  SectionKey : SectionId
  MeshBatch : FMeshBatch
  ScreenSize : FScreenSize
  deriving DecidableEq

/-- The static draw interface: the `DrawMesh` calls received, in order. -/
structure FStaticPrimitiveDrawInterface where
  Draws : List FStaticDraw
  deriving DecidableEq

/-- The call `PDI->DrawMesh(MeshBatch, ScreenSize)`. -/
def FStaticPrimitiveDrawInterface.DrawMesh (PDI : FStaticPrimitiveDrawInterface)
    (SectionKey : SectionId) (MeshBatch : FMeshBatch) (ScreenSize : FScreenSize) :
    FStaticPrimitiveDrawInterface :=
  { PDI with Draws := PDI.Draws ++ [⟨SectionKey, MeshBatch, ScreenSize⟩] }

/-- One `Collector.AddMesh(ViewIndex, MeshBatch)` call. `SectionKey` is a label of the
embedding: the key of the snapshot entry the loop was visiting. -/
structure FCollectedMesh where
  SectionKey : SectionId
  ViewIndex : Nat
  MeshBatch : FMeshBatch
  deriving DecidableEq

/-- A debug overlay drawn at the end of dynamic submission. -/
inductive FDebugDraw where
  | CollisionGeom (ViewIndex : Nat) (bSelected bHovered : Bool)
  | Bounds (ViewIndex : Nat) (bSelected : Bool)
  deriving DecidableEq

/-- The mesh element collector: registered one-frame material proxies, collected
meshes and debug overlays, each in call order. -/
structure FMeshElementCollector where
  OneFrameMaterialProxies : List FMaterialRenderProxy
  Meshes : List FCollectedMesh
  DebugDraws : List FDebugDraw
  deriving DecidableEq

/-- A collector that has received nothing. -/
def FMeshElementCollector.empty : FMeshElementCollector := ⟨[], [], []⟩

/-- The call `Collector.RegisterOneFrameMaterialProxy(Proxy)`. -/
def FMeshElementCollector.RegisterOneFrameMaterialProxy (Collector : FMeshElementCollector)
    (Proxy : FMaterialRenderProxy) : FMeshElementCollector :=
  { Collector with OneFrameMaterialProxies := Collector.OneFrameMaterialProxies ++ [Proxy] }

/-- The calls `Collector.AllocateMesh()` and then `Collector.AddMesh(ViewIndex, MeshBatch)`. -/
def FMeshElementCollector.AddMesh (Collector : FMeshElementCollector)
    (SectionKey : SectionId) (ViewIndex : Nat) (MeshBatch : FMeshBatch) :
    FMeshElementCollector :=
  { Collector with Meshes := Collector.Meshes ++ [⟨SectionKey, ViewIndex, MeshBatch⟩] }

/-! ## Externals, component, proxy state -/

/-- The relevance descriptor returned by `GetViewRelevance`. `MaterialFacets` stands for
the facets written by `FMaterialRelevance::SetPrimitiveViewRelevance`. -/
structure FPrimitiveViewRelevance where
  bDrawRelevance : Bool
  bShadowRelevance : Bool
  bStaticRelevance : Bool
  bDynamicRelevance : Bool
  bRenderInMainPass : Bool
  bUsesLightingChannels : Bool
  bRenderCustomDepth : Bool
  MaterialFacets : Nat
  deriving DecidableEq, Repr

/-- Engine globals and engine or sibling-module functions called by this file. -/
structure Externals where
  /-- The engine function `RequiresAdjacencyInformation(Material, VertexFactoryType, FeatureLevel)`. -/
  RequiresAdjacencyInformation : Option UMaterialInterface → FVertexFactoryType → ERHIFeatureLevel → Bool
  /-- The call `Material->GetRelevance(FeatureLevel)`, as a bit mask. -/
  GetRelevance : UMaterialInterface → ERHIFeatureLevel → Nat
  /-- The result of `UMaterial::GetDefaultMaterial(MD_Surface)`. -/
  DefaultMaterial : UMaterialInterface
  /-- The result of `IsStaticPathAvailable()`. -/
  bStaticPathAvailable : Bool
  /-- The result of `AllowDebugViewmodes()`. -/
  bAllowDebugViewmodes : Bool
  /-- The pointer `GEngine->WireframeMaterial`. -/
  WireframeMaterial : Option UMaterialInterface
  /-- The engine function `IsRichView(ViewFamily)`. -/
  IsRichView : FSceneViewFamily → Bool
  /-- The result of `GetDefaultLightingChannelMask()`. -/
  DefaultLightingChannelMask : Nat
  /-- Modelled from the spec: `FRuntimeMeshProxy::CalculateViewRelevance`, outside this
  file; per the spec it recomputes the three derived booleans (has-static, has-dynamic,
  has-shadow-casting sections) from the current mesh snapshot
  (`computeViewRelevanceFlags() -> (bool,bool,bool)`). -/
  CalculateViewRelevance : FRuntimeMeshProxy → Bool × Bool × Bool
  /-- True when the build is neither `UE_BUILD_SHIPPING` nor `UE_BUILD_TEST`. -/
  bDebugDrawCompiledIn : Bool

/-- The state of the `FPrimitiveSceneProxy` base class that this file reads. -/
structure FPrimitiveSceneProxy where
  bSelected : Bool
  bHovered : Bool
  bLocalToWorldDeterminantNegative : Bool
  FeatureLevel : ERHIFeatureLevel
  IsShown : FSceneView → Bool
  IsShadowCast : FSceneView → Bool
  bRenderInMainPass : Bool
  LightingChannelMask : Nat
  bRenderCustomDepth : Bool
  bCollisionEnabled : Bool
  UniformBuffer : Nat
  bStaticElementsAlwaysUseProxyPrimitiveUniformBuffer : Bool

/-- What the constructor reads of the `URuntimeMeshComponent`. -/
structure URuntimeMeshComponent where
  /-- The base state `FPrimitiveSceneProxy(Component)` sets up. -/
  Primitive : FPrimitiveSceneProxy
  /-- The result of `GetBodySetup()`. -/
  BodySetup : Option UBodySetup
  /-- The result of `GetRuntimeMesh()`. -/
  RuntimeMesh : Option URuntimeMesh
  /-- The call `GetMaterial(SectionId)`. -/
  GetMaterial : SectionId → Option UMaterialInterface

/-- The record `FRuntimeMeshSectionRenderData`: the material pointer and the adjacency flag. -/
structure FRuntimeMeshSectionRenderData where
  Material : Option UMaterialInterface
  bWantsAdjacencyInfo : Bool
  deriving DecidableEq, Repr

/-- The scene proxy. -/
structure FRuntimeMeshSceneProxy where
  Primitive : FPrimitiveSceneProxy
  BodySetup : Option UBodySetup
  SectionRenderData : TMap SectionId FRuntimeMeshSectionRenderData
  MaterialRelevance : Nat
  bHasStaticSections : Bool
  bHasDynamicSections : Bool
  bHasShadowableSections : Bool

namespace FRuntimeMeshSceneProxy

/-- The accessor `IsSelected()`. -/
def IsSelected (Proxy : FRuntimeMeshSceneProxy) : Bool := Proxy.Primitive.bSelected

/-! ## Constructor -/

/-- The loop of the constructor over `GetSectionIds()`. -/
def constructLoop (ext : Externals) (Component : URuntimeMeshComponent) :
    List SectionId → FRuntimeMeshSceneProxy → FRuntimeMeshSceneProxy
  | [], Proxy => Proxy
  | SectionId :: rest, Proxy =>
    let Mat : UMaterialInterface :=
      match Component.GetMaterial SectionId with
      | some M => M
      | none => ext.DefaultMaterial
    constructLoop ext Component rest
      { Proxy with
        SectionRenderData := Proxy.SectionRenderData.Add SectionId ⟨some Mat, false⟩
        MaterialRelevance := Proxy.MaterialRelevance ||| ext.GetRelevance Mat Proxy.Primitive.FeatureLevel }

/-- The constructor `FRuntimeMeshSceneProxy(Component)`; `none` is the failed
`check(Component->GetRuntimeMesh() != nullptr)`. -/
def construct (ext : Externals) (Component : URuntimeMeshComponent) :
    Option FRuntimeMeshSceneProxy :=
  match Component.RuntimeMesh with
  | none => none
  | some Mesh =>
    some (constructLoop ext Component Mesh.SectionIds
      { Primitive :=
          { Component.Primitive with bStaticElementsAlwaysUseProxyPrimitiveUniformBuffer := true }
        BodySetup := Component.BodySetup
        SectionRenderData := TMap.empty
        MaterialRelevance := 0
        bHasStaticSections := false
        bHasDynamicSections := false
        bHasShadowableSections := false })

/-! ## CreateRenderThreadResources -/

/-- The loop of `CreateRenderThreadResources` over the entries of `SectionRenderData`:
an entry whose key the snapshot contains gets its adjacency flag recomputed; `none` is
the dereference of an invalid section pointer. -/
def adjacencyLoop (ext : Externals) (RuntimeMesh : FRuntimeMeshProxy)
    (FeatureLevel : ERHIFeatureLevel) :
    List (SectionId × FRuntimeMeshSectionRenderData) →
      Option (List (SectionId × FRuntimeMeshSectionRenderData))
  | [] => some []
  | (Key, RenderData) :: rest =>
    if RuntimeMesh.Sections.Contains Key then
      match RuntimeMesh.Sections.FindChecked Key with
      | some (some Section) =>
        match adjacencyLoop ext RuntimeMesh FeatureLevel rest with
        | some done =>
          some ((Key, { RenderData with
            bWantsAdjacencyInfo :=
              ext.RequiresAdjacencyInformation RenderData.Material Section.VertexFactoryType
                FeatureLevel }) :: done)
        | none => none
      | _ => none
    else
      match adjacencyLoop ext RuntimeMesh FeatureLevel rest with
      | some done => some ((Key, RenderData) :: done)
      | none => none

/-- The method `CreateRenderThreadResources()`. The closing call to the base class
method does nothing to the state kept here. -/
def CreateRenderThreadResources (ext : Externals) (RuntimeMesh : FRuntimeMeshProxy)
    (Proxy : FRuntimeMeshSceneProxy) : Option FRuntimeMeshSceneProxy :=
  let Flags := ext.CalculateViewRelevance RuntimeMesh
  match adjacencyLoop ext RuntimeMesh Proxy.Primitive.FeatureLevel
      Proxy.SectionRenderData.Pairs with
  | none => none
  | some Pairs =>
    some { Proxy with
      bHasStaticSections := Flags.1
      bHasDynamicSections := Flags.2.1
      bHasShadowableSections := Flags.2.2
      SectionRenderData := ⟨Pairs⟩ }

/-! ## GetViewRelevance -/

/-- The local `bForceDynamicPath` of `GetViewRelevance` and of the view loop of
`GetDynamicMeshElements`, for the family of one view. -/
def forceDynamicPath (ext : Externals) (Proxy : FRuntimeMeshSceneProxy)
    (Family : FSceneViewFamily) : Bool :=
  !ext.bStaticPathAvailable || ext.IsRichView Family || Proxy.IsSelected ||
    Family.EngineShowFlags.Wireframe

/-- The method `GetViewRelevance(View)`. The last step,
`MaterialRelevance.SetPrimitiveViewRelevance(Result)`, writes the material facets only. -/
def GetViewRelevance (ext : Externals) (Proxy : FRuntimeMeshSceneProxy) (View : FSceneView) :
    FPrimitiveViewRelevance :=
  let bForceDynamicPath : Bool :=
    !ext.bStaticPathAvailable || ext.IsRichView View.Family || Proxy.IsSelected ||
      View.Family.EngineShowFlags.Wireframe
  { bDrawRelevance := Proxy.Primitive.IsShown View
    bShadowRelevance := Proxy.Primitive.IsShadowCast View
    bStaticRelevance := !bForceDynamicPath && Proxy.bHasStaticSections
    bDynamicRelevance := bForceDynamicPath || Proxy.bHasDynamicSections
    bRenderInMainPass := Proxy.Primitive.bRenderInMainPass
    bUsesLightingChannels := Proxy.Primitive.LightingChannelMask != ext.DefaultLightingChannelMask
    bRenderCustomDepth := Proxy.Primitive.bRenderCustomDepth
    MaterialFacets := Proxy.MaterialRelevance }

/-! ## CreateMeshBatch -/

/-- The method `CreateMeshBatch(MeshBatch, Section, RenderData, Material, WireframeMaterial)`. -/
def CreateMeshBatch (Proxy : FRuntimeMeshSceneProxy) (MeshBatch : FMeshBatch)
    (Section : FRuntimeMeshSectionProxy) (RenderData : FRuntimeMeshSectionRenderData)
    (Material : Option FMaterialRenderProxy) (WireframeMaterial : Option FMaterialRenderProxy) :
    FMeshBatch :=
  let bRenderWireframe : Bool := WireframeMaterial.isSome
  let bWantsAdjacency : Bool := !bRenderWireframe && RenderData.bWantsAdjacencyInfo
  let MeshBatch1 := Section.CreateMeshBatch MeshBatch bWantsAdjacency
  let bWireframe : Bool := WireframeMaterial.isSome
  { MeshBatch1 with
    bWireframe := bWireframe
    MaterialRenderProxy := if bWireframe then WireframeMaterial else Material
    ReverseCulling := Proxy.Primitive.bLocalToWorldDeterminantNegative
    bCanApplyViewModeOverrides := true
    PrimitiveUniformBufferResource := some Proxy.Primitive.UniformBuffer }

/-! ## DrawStaticElements -/

/-- The loop of `DrawStaticElements` over the entries of `RuntimeMesh->GetSections()`.
`none` is the failed checked lookup `SectionRenderData[SectionEntry.Key]` or the
dereference of a null `RenderData.Material`. -/
def staticLoop (Proxy : FRuntimeMeshSceneProxy) :
    List (SectionId × FRuntimeMeshSectionProxyPtr) → FStaticPrimitiveDrawInterface →
      Option FStaticPrimitiveDrawInterface
  | [], PDI => some PDI
  | (Key, SectionPtr) :: rest, PDI =>
    match SectionPtr with
    | some Section =>
      if Section.bShouldRender && Section.bWantsToRenderInStaticPath then
        match Proxy.SectionRenderData.FindChecked Key with
        | some RenderData =>
          match RenderData.Material with
          | some Mat =>
            let Material := Mat.GetRenderProxy false
            let MeshBatch :=
              Proxy.CreateMeshBatch FMeshBatch.default Section RenderData (some Material) none
            staticLoop Proxy rest (PDI.DrawMesh Key MeshBatch FScreenSize.FLT_MAX)
          | none => none
        | none => none
      else staticLoop Proxy rest PDI
    | none => staticLoop Proxy rest PDI

/-- The method `DrawStaticElements(PDI)`. -/
def DrawStaticElements (RuntimeMesh : FRuntimeMeshProxy) (Proxy : FRuntimeMeshSceneProxy)
    (PDI : FStaticPrimitiveDrawInterface) : Option FStaticPrimitiveDrawInterface :=
  staticLoop Proxy RuntimeMesh.Sections.Pairs PDI

/-! ## GetDynamicMeshElements -/

/-- The test `VisibilityMap & (1 << ViewIndex)` on a `uint32` map. The shift is
defined in C++ for `ViewIndex < 32` only; for larger indices this definition takes the
shifted bit to fall off the 32-bit word. -/
def visibleInView (VisibilityMap : Nat) (ViewIndex : Nat) : Bool :=
  ((VisibilityMap % 2 ^ 32) &&& ((1 <<< ViewIndex) % 2 ^ 32)) != 0

/-- The inner loop of `GetDynamicMeshElements` for one section that is valid and
should render: `ViewIndex` counts up through the remaining views. `none` is the failed
checked lookup `SectionRenderData[SectionEntry.Key]` or the dereference of a null
`RenderData.Material`. -/
def viewLoop (ext : Externals) (Proxy : FRuntimeMeshSceneProxy) (VisibilityMap : Nat)
    (WireframeMaterialInstance : Option FMaterialRenderProxy)
    (Key : SectionId) (Section : FRuntimeMeshSectionProxy) :
    Nat → List FSceneView → FMeshElementCollector → Option FMeshElementCollector
  | _, [], Collector => some Collector
  | ViewIndex, View :: rest, Collector =>
    if visibleInView VisibilityMap ViewIndex then
      let bForceDynamicPath : Bool :=
        ext.IsRichView View.Family || View.Family.EngineShowFlags.Wireframe ||
          Proxy.IsSelected || !ext.bStaticPathAvailable
      if bForceDynamicPath || !Section.bWantsToRenderInStaticPath then
        match Proxy.SectionRenderData.FindChecked Key with
        | some RenderData =>
          match RenderData.Material with
          | some Mat =>
            let Material := Mat.GetRenderProxy Proxy.IsSelected
            let MeshBatch :=
              Proxy.CreateMeshBatch FMeshBatch.default Section RenderData (some Material)
                WireframeMaterialInstance
            viewLoop ext Proxy VisibilityMap WireframeMaterialInstance Key Section
              (ViewIndex + 1) rest (Collector.AddMesh Key ViewIndex MeshBatch)
          | none => none
        | none => none
      else
        viewLoop ext Proxy VisibilityMap WireframeMaterialInstance Key Section
          (ViewIndex + 1) rest Collector
    else
      viewLoop ext Proxy VisibilityMap WireframeMaterialInstance Key Section
        (ViewIndex + 1) rest Collector

/-- The outer loop of `GetDynamicMeshElements` over the entries of
`RuntimeMesh->GetSections()`. -/
def sectionLoop (ext : Externals) (Proxy : FRuntimeMeshSceneProxy) (Views : List FSceneView)
    (VisibilityMap : Nat) (WireframeMaterialInstance : Option FMaterialRenderProxy) :
    List (SectionId × FRuntimeMeshSectionProxyPtr) → FMeshElementCollector →
      Option FMeshElementCollector
  | [], Collector => some Collector
  | (Key, SectionPtr) :: rest, Collector =>
    match SectionPtr with
    | some Section =>
      if Section.bShouldRender then
        match viewLoop ext Proxy VisibilityMap WireframeMaterialInstance Key Section 0 Views
            Collector with
        | some Collector1 =>
          sectionLoop ext Proxy Views VisibilityMap WireframeMaterialInstance rest Collector1
        | none => none
      else sectionLoop ext Proxy Views VisibilityMap WireframeMaterialInstance rest Collector
    | none => sectionLoop ext Proxy Views VisibilityMap WireframeMaterialInstance rest Collector

/-- The debug loop at the end of `GetDynamicMeshElements`: collision geometry and bounds
for every visible view. -/
def debugLoop (Proxy : FRuntimeMeshSceneProxy) (ViewFamily : FSceneViewFamily)
    (VisibilityMap : Nat) :
    Nat → List FSceneView → FMeshElementCollector → FMeshElementCollector
  | _, [], Collector => Collector
  | ViewIndex, _ :: rest, Collector =>
    if visibleInView VisibilityMap ViewIndex then
      let bDrawCollision : Bool :=
        ViewFamily.EngineShowFlags.Collision && Proxy.Primitive.bCollisionEnabled &&
          (match Proxy.BodySetup with
           | some Body => Body.CollisionTraceFlag != ECollisionTraceFlag.CTF_UseComplexAsSimple
           | none => false)
      let Collector1 : FMeshElementCollector :=
        if bDrawCollision then
          { Collector with DebugDraws := Collector.DebugDraws ++
              [FDebugDraw.CollisionGeom ViewIndex Proxy.IsSelected Proxy.Primitive.bHovered] }
        else Collector
      debugLoop Proxy ViewFamily VisibilityMap (ViewIndex + 1) rest
        { Collector1 with DebugDraws := Collector1.DebugDraws ++
            [FDebugDraw.Bounds ViewIndex Proxy.IsSelected] }
    else debugLoop Proxy ViewFamily VisibilityMap (ViewIndex + 1) rest Collector

/-- The wireframe override of one `GetDynamicMeshElements` call: a fresh colored proxy
when `AllowDebugViewmodes() && ViewFamily.EngineShowFlags.Wireframe`, null otherwise. -/
def wireframeMaterialInstance (ext : Externals) (Proxy : FRuntimeMeshSceneProxy)
    (ViewFamily : FSceneViewFamily) : Option FMaterialRenderProxy :=
  let bWireframe : Bool := ext.bAllowDebugViewmodes && ViewFamily.EngineShowFlags.Wireframe
  if bWireframe then
    some (FMaterialRenderProxy.colored
      (match ext.WireframeMaterial with
       | some M => some (M, Proxy.IsSelected)
       | none => none)
      ⟨0, 1 / 2, 1⟩)
  else none

/-- The method `GetDynamicMeshElements(Views, ViewFamily, VisibilityMap, Collector)`. -/
def GetDynamicMeshElements (ext : Externals) (RuntimeMesh : FRuntimeMeshProxy)
    (Proxy : FRuntimeMeshSceneProxy) (Views : List FSceneView) (ViewFamily : FSceneViewFamily)
    (VisibilityMap : Nat) (Collector : FMeshElementCollector) : Option FMeshElementCollector :=
  let WireframeMaterialInstance := wireframeMaterialInstance ext Proxy ViewFamily
  let Collector1 : FMeshElementCollector :=
    match WireframeMaterialInstance with
    | some W => Collector.RegisterOneFrameMaterialProxy W
    | none => Collector
  match sectionLoop ext Proxy Views VisibilityMap WireframeMaterialInstance
      RuntimeMesh.Sections.Pairs Collector1 with
  | some Collector2 =>
    if ext.bDebugDrawCompiledIn then
      some (debugLoop Proxy ViewFamily VisibilityMap 0 Views Collector2)
    else some Collector2
  | none => none

end FRuntimeMeshSceneProxy

open FRuntimeMeshSceneProxy

/-! ## Definitions used to state and prove the properties

Per-iteration descriptions of the loops above, and the conditions the theorems speak of. -/

/-- The material the constructor resolves for a section id. -/
def resolvedMaterial (ext : Externals) (Component : URuntimeMeshComponent)
    (Key : SectionId) : UMaterialInterface :=
  match Component.GetMaterial Key with
  | some M => M
  | none => ext.DefaultMaterial

/-- What one pass of the adjacency loop does to one entry when it does not fail. -/
def adjacencyEntry (ext : Externals) (RuntimeMesh : FRuntimeMeshProxy)
    (FeatureLevel : ERHIFeatureLevel) (e : SectionId × FRuntimeMeshSectionRenderData) :
    SectionId × FRuntimeMeshSectionRenderData :=
  match RuntimeMesh.Sections.Find e.1 with
  | some (some Section) =>
    (e.1, { e.2 with
      bWantsAdjacencyInfo :=
        ext.RequiresAdjacencyInformation e.2.Material Section.VertexFactoryType FeatureLevel })
  | _ => e

/-- The table answers the checked lookup with a non-null material for every key of the
snapshot, so that neither submission loop can hit a failed lookup or a null material. -/
def coversSections (Proxy : FRuntimeMeshSceneProxy) (RuntimeMesh : FRuntimeMeshProxy) : Bool :=
  RuntimeMesh.Sections.Pairs.all (fun e =>
    match Proxy.SectionRenderData.Find e.1 with
    | some RenderData => RenderData.Material.isSome
    | none => false)

/-- The test of the static loop on one section pointer. -/
def staticEligible (SectionPtr : FRuntimeMeshSectionProxyPtr) : Bool :=
  match SectionPtr with
  | some Section => Section.bShouldRender && Section.bWantsToRenderInStaticPath
  | none => false

/-- The test of the dynamic loop on one section pointer. -/
def renderEligible (SectionPtr : FRuntimeMeshSectionProxyPtr) : Bool :=
  match SectionPtr with
  | some Section => Section.bShouldRender
  | none => false

/-- The draws one iteration of the static loop adds when its lookups succeed. -/
def staticDraws (Proxy : FRuntimeMeshSceneProxy)
    (e : SectionId × FRuntimeMeshSectionProxyPtr) : List FStaticDraw :=
  match e.2 with
  | some Section =>
    if Section.bShouldRender && Section.bWantsToRenderInStaticPath then
      match Proxy.SectionRenderData.Find e.1 with
      | some RenderData =>
        match RenderData.Material with
        | some Mat =>
          [⟨e.1, Proxy.CreateMeshBatch FMeshBatch.default Section RenderData
              (some (Mat.GetRenderProxy false)) none, FScreenSize.FLT_MAX⟩]
        | none => []
      | none => []
    else []
  | none => []

/-- The meshes the view loop adds for one section whose entry and material are known. -/
def viewMeshes (ext : Externals) (Proxy : FRuntimeMeshSceneProxy) (VisibilityMap : Nat)
    (WireframeMaterialInstance : Option FMaterialRenderProxy)
    (Key : SectionId) (Section : FRuntimeMeshSectionProxy)
    (RenderData : FRuntimeMeshSectionRenderData) (Mat : UMaterialInterface) :
    Nat → List FSceneView → List FCollectedMesh
  | _, [] => []
  | ViewIndex, View :: rest =>
    (if visibleInView VisibilityMap ViewIndex &&
        ((ext.IsRichView View.Family || View.Family.EngineShowFlags.Wireframe ||
          Proxy.IsSelected || !ext.bStaticPathAvailable) ||
          !Section.bWantsToRenderInStaticPath) then
      [⟨Key, ViewIndex, Proxy.CreateMeshBatch FMeshBatch.default Section RenderData
          (some (Mat.GetRenderProxy Proxy.IsSelected)) WireframeMaterialInstance⟩]
    else []) ++
    viewMeshes ext Proxy VisibilityMap WireframeMaterialInstance Key Section RenderData Mat
      (ViewIndex + 1) rest

/-- The meshes one iteration of the section loop adds when its lookups succeed. -/
def sectionMeshes (ext : Externals) (Proxy : FRuntimeMeshSceneProxy) (Views : List FSceneView)
    (VisibilityMap : Nat) (WireframeMaterialInstance : Option FMaterialRenderProxy)
    (e : SectionId × FRuntimeMeshSectionProxyPtr) : List FCollectedMesh :=
  match e.2 with
  | some Section =>
    if Section.bShouldRender then
      match Proxy.SectionRenderData.Find e.1 with
      | some RenderData =>
        match RenderData.Material with
        | some Mat =>
          viewMeshes ext Proxy VisibilityMap WireframeMaterialInstance e.1 Section RenderData Mat
            0 Views
        | none => []
      | none => []
    else []
  | none => []

/-! ## Scenarios

Concrete externals, components and snapshots: Scenarios A, B and C of the specification. -/

/-- Example externals: static path available, debug view modes allowed, a wireframe
material is set, a family is a rich view when its `Rest` is not zero, and adjacency is
required for a non-null material on vertex factory type `1`. -/
def exampleExternals : Externals :=
  { RequiresAdjacencyInformation := fun Material VertexFactoryType _ =>
      Material.isSome && VertexFactoryType == 1
    GetRelevance := fun Material _ => Material.Id
    DefaultMaterial := ⟨0⟩
    bStaticPathAvailable := true
    bAllowDebugViewmodes := true
    WireframeMaterial := some ⟨99⟩
    IsRichView := fun Family => Family.Rest != 0
    DefaultLightingChannelMask := 1
    CalculateViewRelevance := fun RuntimeMesh =>
      (RuntimeMesh.Sections.Pairs.any (fun e =>
          match e.2 with
          | some Section => Section.bWantsToRenderInStaticPath
          | none => false),
       RuntimeMesh.Sections.Pairs.any (fun e =>
          match e.2 with
          | some Section => !Section.bWantsToRenderInStaticPath
          | none => false),
       false)
    bDebugDrawCompiledIn := true }

/-- An unselected, unmirrored primitive shown in every view. -/
def examplePrimitive : FPrimitiveSceneProxy :=
  { bSelected := false, bHovered := false, bLocalToWorldDeterminantNegative := false,
    FeatureLevel := 3, IsShown := fun _ => true, IsShadowCast := fun _ => true,
    bRenderInMainPass := true, LightingChannelMask := 1, bRenderCustomDepth := false,
    bCollisionEnabled := true, UniformBuffer := 5,
    bStaticElementsAlwaysUseProxyPrimitiveUniformBuffer := false }

/-- A component over the given section ids with no material assigned anywhere. -/
def exampleComponent (Ids : List SectionId) (bSelected : Bool) : URuntimeMeshComponent :=
  { Primitive := { examplePrimitive with bSelected := bSelected }
    BodySetup := none
    RuntimeMesh := some ⟨Ids⟩
    GetMaterial := fun _ => none }

/-- A section that should render, static-eligible or not, on vertex factory type `1`. -/
def exampleSection (bStatic : Bool) : FRuntimeMeshSectionProxy :=
  { bShouldRender := true, bWantsToRenderInStaticPath := bStatic, VertexFactoryType := 1 }

/-- An ordinary view family: no wireframe, no collision display, not a rich view. -/
def plainFamily : FSceneViewFamily := ⟨⟨false, false⟩, 0⟩

/-- A view family in wireframe mode. -/
def wireframeFamily : FSceneViewFamily := ⟨⟨true, false⟩, 0⟩

/-- Scenario A: two sections, both static-eligible. -/
def scenarioAMesh : FRuntimeMeshProxy :=
  ⟨⟨[(0, some (exampleSection true)), (1, some (exampleSection true))]⟩, by decide⟩

/-- Scenario B: one static-eligible section. -/
def scenarioBMesh : FRuntimeMeshProxy :=
  ⟨⟨[(0, some (exampleSection true))]⟩, by decide⟩

/-- Scenario C: three sections, two static-eligible and one not. -/
def scenarioCMesh : FRuntimeMeshProxy :=
  ⟨⟨[(0, some (exampleSection true)), (1, some (exampleSection true)),
      (2, some (exampleSection false))]⟩, by decide⟩

/-- A render-data table holding the default material, adjacency flag clear, for the
given keys. -/
def exampleTable (Ids : List SectionId) : TMap SectionId FRuntimeMeshSectionRenderData :=
  Ids.foldl (fun Table Key => Table.Add Key ⟨some ⟨0⟩, false⟩) TMap.empty

/-- A proxy over the given keys as the constructor leaves it for `exampleComponent`. -/
def exampleProxy (Ids : List SectionId) (bSelected : Bool) : FRuntimeMeshSceneProxy :=
  { Primitive :=
      { examplePrimitive with
        bSelected := bSelected, bStaticElementsAlwaysUseProxyPrimitiveUniformBuffer := true }
    BodySetup := none
    SectionRenderData := exampleTable Ids
    MaterialRelevance := 0
    bHasStaticSections := false
    bHasDynamicSections := false
    bHasShadowableSections := false }

/-! ## Relevance query and batch builder -/

/-- C4: the relevance query reports static relevance exactly when the static path is
available, the view is not a rich view, the node is not selected, the view is not in
wireframe mode and the proxy has static sections; it reports dynamic relevance exactly
when the static path is unavailable, or the view is a rich view, or the node is
selected, or the view is in wireframe mode, or the proxy has dynamic sections. Static
relevance and the force-dynamic condition never hold together, a force-dynamic
condition gives dynamic relevance without static relevance, and equal proxy states and
views give equal descriptors. -/
theorem GetViewRelevance_static_dynamic (ext : Externals) (Proxy : FRuntimeMeshSceneProxy)
    (View : FSceneView) :
    ((Proxy.GetViewRelevance ext View).bStaticRelevance = true ↔
      (ext.bStaticPathAvailable = true ∧ ext.IsRichView View.Family = false ∧
        Proxy.IsSelected = false ∧ View.Family.EngineShowFlags.Wireframe = false ∧
        Proxy.bHasStaticSections = true)) ∧
    ((Proxy.GetViewRelevance ext View).bDynamicRelevance = true ↔
      (ext.bStaticPathAvailable = false ∨ ext.IsRichView View.Family = true ∨
        Proxy.IsSelected = true ∨ View.Family.EngineShowFlags.Wireframe = true ∨
        Proxy.bHasDynamicSections = true)) ∧
    ¬ ((Proxy.GetViewRelevance ext View).bStaticRelevance = true ∧
        Proxy.forceDynamicPath ext View.Family = true) ∧
    (Proxy.forceDynamicPath ext View.Family = true →
      (Proxy.GetViewRelevance ext View).bDynamicRelevance = true ∧
      (Proxy.GetViewRelevance ext View).bStaticRelevance = false) ∧
    (∀ (Proxy2 : FRuntimeMeshSceneProxy) (View2 : FSceneView),
      Proxy2 = Proxy → View2 = View →
      Proxy2.GetViewRelevance ext View2 = Proxy.GetViewRelevance ext View) := by
  refine ⟨?_, ?_, ?_, ?_, ?_⟩
  · simp only [GetViewRelevance, forceDynamicPath]
    cases ext.bStaticPathAvailable <;> cases ext.IsRichView View.Family <;>
      cases Proxy.IsSelected <;> cases View.Family.EngineShowFlags.Wireframe <;>
      cases Proxy.bHasStaticSections <;> simp
  · simp only [GetViewRelevance, forceDynamicPath]
    cases ext.bStaticPathAvailable <;> cases ext.IsRichView View.Family <;>
      cases Proxy.IsSelected <;> cases View.Family.EngineShowFlags.Wireframe <;>
      cases Proxy.bHasDynamicSections <;> simp
  · simp only [GetViewRelevance, forceDynamicPath]
    cases ext.bStaticPathAvailable <;> cases ext.IsRichView View.Family <;>
      cases Proxy.IsSelected <;> cases View.Family.EngineShowFlags.Wireframe <;>
      cases Proxy.bHasStaticSections <;> simp
  · simp only [GetViewRelevance, forceDynamicPath]
    cases ext.bStaticPathAvailable <;> cases ext.IsRichView View.Family <;>
      cases Proxy.IsSelected <;> cases View.Family.EngineShowFlags.Wireframe <;> simp
  · intro Proxy2 View2 hP hV
    rw [hP, hV]

/-- Scenario B at the relevance query: a selected node with one static-eligible section
has dynamic relevance and no static relevance, also when the proxy has static sections. -/
theorem GetViewRelevance_static_dynamic_witness :
    (({ exampleProxy [0] true with bHasStaticSections := true } :
        FRuntimeMeshSceneProxy).forceDynamicPath exampleExternals plainFamily = true) ∧
    (({ exampleProxy [0] true with bHasStaticSections := true } :
        FRuntimeMeshSceneProxy).GetViewRelevance exampleExternals ⟨plainFamily, 0⟩).bDynamicRelevance
      = true ∧
    (({ exampleProxy [0] true with bHasStaticSections := true } :
        FRuntimeMeshSceneProxy).GetViewRelevance exampleExternals ⟨plainFamily, 0⟩).bStaticRelevance
      = false :=
  ⟨rfl,
   (GetViewRelevance_static_dynamic exampleExternals
      { exampleProxy [0] true with bHasStaticSections := true } ⟨plainFamily, 0⟩).2.2.2.1 rfl⟩

/-- C6: the batch built by `CreateMeshBatch` asks the section for adjacency geometry
exactly when the entry's adjacency flag is set and no wireframe override is given, has
its wireframe flag set exactly when an override is given, carries the override as its
material when one is given and the resolved material otherwise, has reversed culling
exactly when the local-to-world determinant is negative, and always allows view-mode
overrides. -/
theorem CreateMeshBatch_fields (Proxy : FRuntimeMeshSceneProxy) (MeshBatch : FMeshBatch)
    (Section : FRuntimeMeshSectionProxy) (RenderData : FRuntimeMeshSectionRenderData)
    (Material WireframeMaterial : Option FMaterialRenderProxy) :
    (∃ bWantsAdjacency : Bool,
      (Proxy.CreateMeshBatch MeshBatch Section RenderData Material WireframeMaterial).Geometry
        = some ⟨Section, bWantsAdjacency⟩ ∧
      (bWantsAdjacency = true ↔
        (RenderData.bWantsAdjacencyInfo = true ∧ WireframeMaterial = none))) ∧
    ((Proxy.CreateMeshBatch MeshBatch Section RenderData Material WireframeMaterial).bWireframe
        = true ↔ WireframeMaterial ≠ none) ∧
    (∀ W, WireframeMaterial = some W →
      (Proxy.CreateMeshBatch MeshBatch Section RenderData Material
        WireframeMaterial).MaterialRenderProxy = some W) ∧
    (WireframeMaterial = none →
      (Proxy.CreateMeshBatch MeshBatch Section RenderData Material
        WireframeMaterial).MaterialRenderProxy = Material) ∧
    ((Proxy.CreateMeshBatch MeshBatch Section RenderData Material WireframeMaterial).ReverseCulling
        = true ↔ Proxy.Primitive.bLocalToWorldDeterminantNegative = true) ∧
    (Proxy.CreateMeshBatch MeshBatch Section RenderData Material
        WireframeMaterial).bCanApplyViewModeOverrides = true := by
  refine ⟨⟨!WireframeMaterial.isSome && RenderData.bWantsAdjacencyInfo, rfl, ?_⟩,
    ?_, ?_, ?_, Iff.rfl, rfl⟩
  · cases WireframeMaterial <;> cases RenderData.bWantsAdjacencyInfo <;> simp
  · cases WireframeMaterial <;> simp [CreateMeshBatch]
  · intro W hW
    subst hW
    simp [CreateMeshBatch]
  · intro hW
    subst hW
    simp [CreateMeshBatch]

/-- A batch built with an override for an entry that wants adjacency: the override is
the material, and no adjacency is requested. -/
theorem CreateMeshBatch_fields_witness :
    ((exampleProxy [0] false).CreateMeshBatch FMeshBatch.default (exampleSection true)
        ⟨some ⟨0⟩, true⟩ (some (FMaterialRenderProxy.ofMaterial ⟨0⟩ false))
        (some (FMaterialRenderProxy.ofMaterial ⟨99⟩ false))).MaterialRenderProxy
      = some (FMaterialRenderProxy.ofMaterial ⟨99⟩ false) ∧
    ((exampleProxy [0] false).CreateMeshBatch FMeshBatch.default (exampleSection true)
        ⟨some ⟨0⟩, true⟩ (some (FMaterialRenderProxy.ofMaterial ⟨0⟩ false))
        none).MaterialRenderProxy
      = some (FMaterialRenderProxy.ofMaterial ⟨0⟩ false) :=
  ⟨(CreateMeshBatch_fields (exampleProxy [0] false) FMeshBatch.default (exampleSection true)
      ⟨some ⟨0⟩, true⟩ (some (FMaterialRenderProxy.ofMaterial ⟨0⟩ false))
      (some (FMaterialRenderProxy.ofMaterial ⟨99⟩ false))).2.2.1 _ rfl,
   (CreateMeshBatch_fields (exampleProxy [0] false) FMeshBatch.default (exampleSection true)
      ⟨some ⟨0⟩, true⟩ (some (FMaterialRenderProxy.ofMaterial ⟨0⟩ false)) none).2.2.2.1 rfl⟩

/-! ## Facts about the engine map -/

theorem TMap.keys_addIn {K V : Type} [DecidableEq K] (Key : K) (Value : V) (l : List (K × V)) :
    (TMap.addIn Key Value l).map Prod.fst =
      if Key ∈ l.map Prod.fst then l.map Prod.fst else l.map Prod.fst ++ [Key] := by
  induction l with
  | nil => simp [TMap.addIn]
  | cons hd tl ih =>
    obtain ⟨k, v⟩ := hd
    by_cases hk : k = Key
    · subst hk
      simp [TMap.addIn]
    · have hk2 : ¬ Key = k := fun h => hk h.symm
      by_cases hmem : Key ∈ tl.map Prod.fst
      · simp only [TMap.addIn, hk, if_false, List.map_cons, ih, hmem, if_true,
          List.mem_cons, or_true]
      · simp only [TMap.addIn, hk, if_false, List.map_cons, ih, hmem, List.mem_cons, hk2,
          or_self, List.cons_append]

theorem TMap.nodup_addIn {K V : Type} [DecidableEq K] (Key : K) (Value : V) (l : List (K × V))
    (h : (l.map Prod.fst).Nodup) : ((TMap.addIn Key Value l).map Prod.fst).Nodup := by
  rw [TMap.keys_addIn]
  split
  · exact h
  · rename_i hmem
    rw [List.nodup_append]
    refine ⟨h, List.nodup_singleton _, ?_⟩
    intro a ha hb
    simp only [List.mem_singleton] at hb
    subst hb
    exact hmem ha

theorem TMap.mem_keys_addIn {K V : Type} [DecidableEq K] (Key k : K) (Value : V)
    (l : List (K × V)) :
    k ∈ (TMap.addIn Key Value l).map Prod.fst ↔ (k ∈ l.map Prod.fst ∨ k = Key) := by
  rw [TMap.keys_addIn]
  split
  · rename_i hmem
    constructor
    · intro h
      exact Or.inl h
    · intro h
      rcases h with h | h
      · exact h
      · rw [h]
        exact hmem
  · simp

theorem TMap.findIn_addIn {K V : Type} [DecidableEq K] (Key k : K) (Value : V)
    (l : List (K × V)) :
    TMap.findIn k (TMap.addIn Key Value l) = if k = Key then some Value else TMap.findIn k l := by
  induction l with
  | nil =>
    by_cases hk : k = Key
    · simp [TMap.addIn, TMap.findIn, hk]
    · have hk2 : ¬ Key = k := fun h => hk h.symm
      simp [TMap.addIn, TMap.findIn, hk, hk2]
  | cons hd tl ih =>
    obtain ⟨a, v⟩ := hd
    by_cases ha : a = Key
    · subst ha
      by_cases hk : k = a
      · subst hk
        simp [TMap.addIn, TMap.findIn]
      · have hk2 : ¬ a = k := fun h => hk h.symm
        simp [TMap.addIn, TMap.findIn, hk, hk2]
    · by_cases hk : k = Key
      · subst hk
        simp [TMap.addIn, TMap.findIn, ha, ih]
      · by_cases hak : a = k
        · subst hak
          simp [TMap.addIn, TMap.findIn, ha]
        · simp [TMap.addIn, TMap.findIn, ha, hak, ih, hk]

theorem TMap.findIn_isSome_iff {K V : Type} [DecidableEq K] (k : K) (l : List (K × V)) :
    (TMap.findIn k l).isSome = true ↔ k ∈ l.map Prod.fst := by
  induction l with
  | nil => simp [TMap.findIn]
  | cons hd tl ih =>
    obtain ⟨a, v⟩ := hd
    by_cases ha : a = k
    · subst ha
      simp [TMap.findIn]
    · have ha2 : ¬ k = a := fun h => ha h.symm
      simp only [TMap.findIn, ha, if_false, ih, List.map_cons, List.mem_cons, ha2, false_or]

theorem TMap.findIn_of_mem {K V : Type} [DecidableEq K] (k : K) (v : V) :
    ∀ (l : List (K × V)), (l.map Prod.fst).Nodup → (k, v) ∈ l → TMap.findIn k l = some v := by
  intro l
  induction l with
  | nil =>
    intro _ h
    simp at h
  | cons hd tl ih =>
    obtain ⟨a, w⟩ := hd
    intro hnd hmem
    simp only [List.map_cons, List.nodup_cons] at hnd
    simp only [List.mem_cons, Prod.mk.injEq] at hmem
    rcases hmem with ⟨h1, h2⟩ | h
    · subst h1
      subst h2
      simp [TMap.findIn]
    · have hne : ¬ a = k := by
        intro hak
        subst hak
        exact hnd.1 (List.mem_map_of_mem Prod.fst h)
      simp only [TMap.findIn, hne, if_false]
      exact ih hnd.2 h

theorem TMap.mem_of_findIn {K V : Type} [DecidableEq K] (k : K) (v : V) :
    ∀ (l : List (K × V)), TMap.findIn k l = some v → (k, v) ∈ l := by
  intro l
  induction l with
  | nil =>
    intro h
    simp [TMap.findIn] at h
  | cons hd tl ih =>
    obtain ⟨a, w⟩ := hd
    intro h
    by_cases ha : a = k
    · subst ha
      simp only [TMap.findIn, if_true, Option.some.injEq] at h
      subst h
      exact List.mem_cons_self _ _
    · simp only [TMap.findIn, ha, if_false] at h
      exact List.mem_cons_of_mem _ (ih h)

/-! ## Constructor -/

theorem constructLoop_Primitive (ext : Externals) (Component : URuntimeMeshComponent) :
    ∀ (Ids : List SectionId) (Proxy : FRuntimeMeshSceneProxy),
      (constructLoop ext Component Ids Proxy).Primitive = Proxy.Primitive := by
  intro Ids
  induction Ids with
  | nil => intro Proxy; rfl
  | cons Key rest ih =>
    intro Proxy
    simp only [constructLoop]
    rw [ih]

theorem constructLoop_keys (ext : Externals) (Component : URuntimeMeshComponent) :
    ∀ (Ids : List SectionId) (Proxy : FRuntimeMeshSceneProxy) (k : SectionId),
      k ∈ (constructLoop ext Component Ids Proxy).SectionRenderData.Keys ↔
        (k ∈ Proxy.SectionRenderData.Keys ∨ k ∈ Ids) := by
  intro Ids
  induction Ids with
  | nil =>
    intro Proxy k
    simp [constructLoop]
  | cons Key rest ih =>
    intro Proxy k
    simp only [constructLoop]
    rw [ih]
    simp only [TMap.Keys, TMap.Add, TMap.mem_keys_addIn, List.mem_cons]
    tauto

theorem constructLoop_entries (ext : Externals) (Component : URuntimeMeshComponent) :
    ∀ (Ids : List SectionId) (Proxy : FRuntimeMeshSceneProxy),
      (∀ k rd, Proxy.SectionRenderData.Find k = some rd →
        rd = ⟨some (resolvedMaterial ext Component k), false⟩) →
      ∀ k rd, (constructLoop ext Component Ids Proxy).SectionRenderData.Find k = some rd →
        rd = ⟨some (resolvedMaterial ext Component k), false⟩ := by
  intro Ids
  induction Ids with
  | nil =>
    intro Proxy h k rd hk
    exact h k rd hk
  | cons Key rest ih =>
    intro Proxy h k rd hk
    simp only [constructLoop] at hk
    refine ih _ ?_ k rd hk
    intro k2 rd2 h2
    simp only [TMap.Find, TMap.Add, TMap.findIn_addIn] at h2
    split at h2
    · rename_i hk2
      subst hk2
      simp only [Option.some.injEq] at h2
      rw [← h2]
      rfl
    · exact h k2 rd2 h2

theorem constructLoop_nodup (ext : Externals) (Component : URuntimeMeshComponent) :
    ∀ (Ids : List SectionId) (Proxy : FRuntimeMeshSceneProxy),
      Proxy.SectionRenderData.Keys.Nodup →
      (constructLoop ext Component Ids Proxy).SectionRenderData.Keys.Nodup := by
  intro Ids
  induction Ids with
  | nil =>
    intro Proxy h
    exact h
  | cons Key rest ih =>
    intro Proxy h
    simp only [constructLoop]
    apply ih
    exact TMap.nodup_addIn Key _ _ h

theorem TMap.num_eq_of_keys {K V : Type} [DecidableEq K] (m : TMap K V) (Ids : List K)
    (hnd : m.Keys.Nodup) (h : ∀ k, k ∈ m.Keys ↔ k ∈ Ids) : m.Num = Ids.dedup.length := by
  have hperm : m.Keys.Perm Ids.dedup := by
    refine (List.perm_ext_iff_of_nodup hnd (List.nodup_dedup Ids)).2 ?_
    intro k
    rw [List.mem_dedup]
    exact h k
  have hlen := hperm.length_eq
  simpa [TMap.Keys, TMap.Num] using hlen

/-- C5: when the component has a runtime mesh, the constructor succeeds; the table it
builds has as many entries as there are distinct section ids, its keys are exactly the
section ids, and every entry has its adjacency flag clear and a non-null material: the
one the component returns for that id when that is non-null, the default surface
material otherwise. -/
theorem construct_table (ext : Externals) (Component : URuntimeMeshComponent)
    (Mesh : URuntimeMesh) (hMesh : Component.RuntimeMesh = some Mesh) :
    ∃ Proxy, construct ext Component = some Proxy ∧
      Proxy.SectionRenderData.Num = Mesh.SectionIds.dedup.length ∧
      (∀ k, k ∈ Proxy.SectionRenderData.Keys ↔ k ∈ Mesh.SectionIds) ∧
      (∀ k, k ∈ Mesh.SectionIds → ∃ rd, Proxy.SectionRenderData.Find k = some rd) ∧
      (∀ k rd, Proxy.SectionRenderData.Find k = some rd →
        rd.bWantsAdjacencyInfo = false ∧ rd.Material ≠ none ∧
        rd.Material = some (match Component.GetMaterial k with
                            | some M => M
                            | none => ext.DefaultMaterial)) := by
  have hkeys : ∀ k, k ∈ (constructLoop ext Component Mesh.SectionIds
      { Primitive :=
          { Component.Primitive with bStaticElementsAlwaysUseProxyPrimitiveUniformBuffer := true }
        BodySetup := Component.BodySetup
        SectionRenderData := TMap.empty
        MaterialRelevance := 0
        bHasStaticSections := false
        bHasDynamicSections := false
        bHasShadowableSections := false }).SectionRenderData.Keys ↔ k ∈ Mesh.SectionIds := by
    intro k
    rw [constructLoop_keys]
    simp [TMap.Keys, TMap.empty]
  refine ⟨_, by simp only [construct, hMesh], ?_, hkeys, ?_, ?_⟩
  · exact TMap.num_eq_of_keys _ _
      (constructLoop_nodup ext Component Mesh.SectionIds _ List.nodup_nil) hkeys
  · intro k hk
    have h1 := (hkeys k).2 hk
    have h2 := (TMap.findIn_isSome_iff k _).2 h1
    exact Option.isSome_iff_exists.1 h2
  · intro k rd hrd
    have h := constructLoop_entries ext Component Mesh.SectionIds _
      (by intro k2 rd2 h2; simp [TMap.Find, TMap.empty, TMap.findIn] at h2) k rd hrd
    subst h
    refine ⟨rfl, by simp, rfl⟩

/-- Scenario A at the constructor: two section ids with no material assigned give a
table of two entries, both holding the default material. -/
theorem construct_table_witness :
    (exampleComponent [0, 1] false).RuntimeMesh = some ⟨[0, 1]⟩ ∧
    ∃ Proxy, construct exampleExternals (exampleComponent [0, 1] false) = some Proxy ∧
      Proxy.SectionRenderData.Num = 2 ∧
      Proxy.SectionRenderData.Find 0 = some ⟨some exampleExternals.DefaultMaterial, false⟩ ∧
      Proxy.SectionRenderData.Find 1 = some ⟨some exampleExternals.DefaultMaterial, false⟩ := by
  refine ⟨rfl, ?_⟩
  obtain ⟨Proxy, hP, hnum, _, hfind, hent⟩ :=
    construct_table exampleExternals (exampleComponent [0, 1] false) ⟨[0, 1]⟩ rfl
  refine ⟨Proxy, hP, ?_, ?_, ?_⟩
  · rw [hnum]
    decide
  · obtain ⟨rd, hrd⟩ := hfind 0 (by simp)
    obtain ⟨h1, _, h3⟩ := hent 0 rd hrd
    rw [hrd]
    cases rd
    simp_all [exampleComponent]
  · obtain ⟨rd, hrd⟩ := hfind 1 (by simp)
    obtain ⟨h1, _, h3⟩ := hent 1 rd hrd
    rw [hrd]
    cases rd
    simp_all [exampleComponent]

/-! ## CreateRenderThreadResources -/

theorem adjacencyEntry_fst (ext : Externals) (RuntimeMesh : FRuntimeMeshProxy)
    (FeatureLevel : ERHIFeatureLevel) (e : SectionId × FRuntimeMeshSectionRenderData) :
    (adjacencyEntry ext RuntimeMesh FeatureLevel e).1 = e.1 := by
  unfold adjacencyEntry
  split <;> rfl

theorem adjacencyEntry_idem (ext : Externals) (RuntimeMesh : FRuntimeMeshProxy)
    (FeatureLevel : ERHIFeatureLevel) (e : SectionId × FRuntimeMeshSectionRenderData) :
    adjacencyEntry ext RuntimeMesh FeatureLevel (adjacencyEntry ext RuntimeMesh FeatureLevel e)
      = adjacencyEntry ext RuntimeMesh FeatureLevel e := by
  obtain ⟨k, rd⟩ := e
  cases hfind : RuntimeMesh.Sections.Find k with
  | none => simp [adjacencyEntry, hfind]
  | some ptr =>
    cases ptr with
    | none => simp [adjacencyEntry, hfind]
    | some Section => simp [adjacencyEntry, hfind]

theorem adjacencyLoop_some (ext : Externals) (RuntimeMesh : FRuntimeMeshProxy)
    (FeatureLevel : ERHIFeatureLevel) :
    ∀ (l out : List (SectionId × FRuntimeMeshSectionRenderData)),
      adjacencyLoop ext RuntimeMesh FeatureLevel l = some out →
      out = l.map (adjacencyEntry ext RuntimeMesh FeatureLevel) := by
  intro l
  induction l with
  | nil =>
    intro out h
    simp only [adjacencyLoop, Option.some.injEq] at h
    subst h
    rfl
  | cons hd tl ih =>
    obtain ⟨Key, RenderData⟩ := hd
    intro out h
    simp only [adjacencyLoop] at h
    split at h
    · split at h
      · rename_i Section hfind
        split at h
        · rename_i done hdone
          simp only [Option.some.injEq] at h
          subst h
          simp only [TMap.FindChecked] at hfind
          simp [adjacencyEntry, hfind, ih done hdone]
        · exact absurd h (by simp)
      · exact absurd h (by simp)
    · rename_i hcont
      split at h
      · rename_i done hdone
        simp only [Option.some.injEq] at h
        subst h
        have hnone : RuntimeMesh.Sections.Find Key = none := by
          simpa [TMap.Contains] using hcont
        simp [adjacencyEntry, hnone, ih done hdone]
      · exact absurd h (by simp)

theorem adjacencyLoop_of_valid (ext : Externals) (RuntimeMesh : FRuntimeMeshProxy)
    (FeatureLevel : ERHIFeatureLevel) :
    ∀ (l : List (SectionId × FRuntimeMeshSectionRenderData)),
      (∀ e, e ∈ l → RuntimeMesh.Sections.Find e.1 ≠ some none) →
      adjacencyLoop ext RuntimeMesh FeatureLevel l =
        some (l.map (adjacencyEntry ext RuntimeMesh FeatureLevel)) := by
  intro l
  induction l with
  | nil => intro _; rfl
  | cons hd tl ih =>
    obtain ⟨Key, RenderData⟩ := hd
    intro hvalid
    have htl := ih (fun e he => hvalid e (List.mem_cons_of_mem _ he))
    have hhd := hvalid (Key, RenderData) (List.mem_cons_self _ _)
    cases hfind : RuntimeMesh.Sections.Find Key with
    | none =>
      simp [adjacencyLoop, TMap.Contains, hfind, htl, adjacencyEntry]
    | some ptr =>
      cases ptr with
      | none => exact absurd hfind hhd
      | some Section =>
        simp [adjacencyLoop, TMap.Contains, TMap.FindChecked, hfind, htl, adjacencyEntry]

theorem adjacencyLoop_valid_of_some (ext : Externals) (RuntimeMesh : FRuntimeMeshProxy)
    (FeatureLevel : ERHIFeatureLevel) :
    ∀ (l out : List (SectionId × FRuntimeMeshSectionRenderData)),
      adjacencyLoop ext RuntimeMesh FeatureLevel l = some out →
      ∀ e, e ∈ l → RuntimeMesh.Sections.Find e.1 ≠ some none := by
  intro l
  induction l with
  | nil =>
    intro out _ e he
    simp at he
  | cons hd tl ih =>
    obtain ⟨Key, RenderData⟩ := hd
    intro out h e he
    simp only [adjacencyLoop] at h
    have htl : ∃ done, adjacencyLoop ext RuntimeMesh FeatureLevel tl = some done := by
      split at h
      · split at h
        · split at h
          · rename_i done hdone
            exact ⟨done, hdone⟩
          · exact absurd h (by simp)
        · exact absurd h (by simp)
      · split at h
        · rename_i done hdone
          exact ⟨done, hdone⟩
        · exact absurd h (by simp)
    obtain ⟨done, hdone⟩ := htl
    rcases List.mem_cons.1 he with he1 | he2
    · subst he1
      intro hbad
      simp [TMap.Contains, TMap.FindChecked, hbad] at h
    · exact ih done hdone e he2

theorem adjacencyLoop_again (ext : Externals) (RuntimeMesh : FRuntimeMeshProxy)
    (FeatureLevel : ERHIFeatureLevel)
    (l out : List (SectionId × FRuntimeMeshSectionRenderData))
    (h : adjacencyLoop ext RuntimeMesh FeatureLevel l = some out) :
    adjacencyLoop ext RuntimeMesh FeatureLevel out = some out := by
  have hout := adjacencyLoop_some ext RuntimeMesh FeatureLevel l out h
  have hvalid := adjacencyLoop_valid_of_some ext RuntimeMesh FeatureLevel l out h
  have hvalid2 : ∀ e, e ∈ out → RuntimeMesh.Sections.Find e.1 ≠ some none := by
    intro e he
    rw [hout] at he
    obtain ⟨e0, he0, rfl⟩ := List.mem_map.1 he
    rw [adjacencyEntry_fst]
    exact hvalid e0 he0
  rw [adjacencyLoop_of_valid ext RuntimeMesh FeatureLevel out hvalid2]
  congr 1
  rw [hout, List.map_map]
  apply List.map_congr_left
  intro e _
  exact adjacencyEntry_idem ext RuntimeMesh FeatureLevel e

theorem FRuntimeMeshSceneProxy.eq_of_fields (P Q : FRuntimeMeshSceneProxy)
    (h1 : P.Primitive = Q.Primitive) (h2 : P.BodySetup = Q.BodySetup)
    (h3 : P.SectionRenderData.Pairs = Q.SectionRenderData.Pairs)
    (h4 : P.MaterialRelevance = Q.MaterialRelevance)
    (h5 : P.bHasStaticSections = Q.bHasStaticSections)
    (h6 : P.bHasDynamicSections = Q.bHasDynamicSections)
    (h7 : P.bHasShadowableSections = Q.bHasShadowableSections) : P = Q := by
  obtain ⟨p1, p2, ⟨p3⟩, p4, p5, p6, p7⟩ := P
  obtain ⟨q1, q2, ⟨q3⟩, q4, q5, q6, q7⟩ := Q
  simp only at h1 h2 h3 h4 h5 h6 h7
  subst h1 h2 h3 h4 h5 h6 h7
  rfl

theorem CreateRenderThreadResources_of_loop (ext : Externals) (RuntimeMesh : FRuntimeMeshProxy)
    (Proxy : FRuntimeMeshSceneProxy) (Pairs : List (SectionId × FRuntimeMeshSectionRenderData))
    (h : adjacencyLoop ext RuntimeMesh Proxy.Primitive.FeatureLevel
      Proxy.SectionRenderData.Pairs = some Pairs) :
    ∃ Proxy1, CreateRenderThreadResources ext RuntimeMesh Proxy = some Proxy1 ∧
      Proxy1.Primitive = Proxy.Primitive ∧ Proxy1.BodySetup = Proxy.BodySetup ∧
      Proxy1.SectionRenderData.Pairs = Pairs ∧
      Proxy1.MaterialRelevance = Proxy.MaterialRelevance ∧
      Proxy1.bHasStaticSections = (ext.CalculateViewRelevance RuntimeMesh).1 ∧
      Proxy1.bHasDynamicSections = (ext.CalculateViewRelevance RuntimeMesh).2.1 ∧
      Proxy1.bHasShadowableSections = (ext.CalculateViewRelevance RuntimeMesh).2.2 := by
  unfold CreateRenderThreadResources
  simp only
  split
  · rename_i hnone
    rw [hnone] at h
    exact absurd h (by simp)
  · rename_i Pairs2 hsome
    rw [hsome] at h
    simp only [Option.some.injEq] at h
    subst h
    exact ⟨_, rfl, rfl, rfl, rfl, rfl, rfl, rfl, rfl⟩

theorem CreateRenderThreadResources_none (ext : Externals) (RuntimeMesh : FRuntimeMeshProxy)
    (Proxy : FRuntimeMeshSceneProxy)
    (h : adjacencyLoop ext RuntimeMesh Proxy.Primitive.FeatureLevel
      Proxy.SectionRenderData.Pairs = none) :
    CreateRenderThreadResources ext RuntimeMesh Proxy = none := by
  unfold CreateRenderThreadResources
  simp only
  split
  · rfl
  · rename_i Pairs2 hsome
    rw [hsome] at h
    exact absurd h (by simp)

theorem findIn_map_adjacencyEntry (ext : Externals) (RuntimeMesh : FRuntimeMeshProxy)
    (FeatureLevel : ERHIFeatureLevel) (k : SectionId) :
    ∀ (l : List (SectionId × FRuntimeMeshSectionRenderData)),
      TMap.findIn k (l.map (adjacencyEntry ext RuntimeMesh FeatureLevel)) =
        (TMap.findIn k l).map
          (fun rd => (adjacencyEntry ext RuntimeMesh FeatureLevel (k, rd)).2) := by
  intro l
  induction l with
  | nil => rfl
  | cons hd tl ih =>
    obtain ⟨a, rd⟩ := hd
    have hfst := adjacencyEntry_fst ext RuntimeMesh FeatureLevel (a, rd)
    simp only at hfst
    by_cases ha : a = k
    · subst ha
      have hhd : adjacencyEntry ext RuntimeMesh FeatureLevel (a, rd) =
          (a, (adjacencyEntry ext RuntimeMesh FeatureLevel (a, rd)).2) :=
        Prod.ext hfst rfl
      rw [List.map_cons, hhd]
      simp [TMap.findIn]
    · have hhd : adjacencyEntry ext RuntimeMesh FeatureLevel (a, rd) =
          (a, (adjacencyEntry ext RuntimeMesh FeatureLevel (a, rd)).2) :=
        Prod.ext hfst rfl
      rw [List.map_cons, hhd]
      simp only [TMap.findIn, ha, if_false]
      exact ih

/-- C9: on a freshly constructed proxy, when no section pointer the loop dereferences is
null, `CreateRenderThreadResources` succeeds and leaves the key list of the table and
every entry's material as they were; afterwards an entry's adjacency flag is set exactly
when its key is in the snapshot and the engine reports that its material requires
adjacency for that section's vertex factory type at the scene's feature level, and an
entry whose key is not in the snapshot keeps its flag clear. -/
theorem CreateRenderThreadResources_adjacency (ext : Externals)
    (Component : URuntimeMeshComponent) (RuntimeMesh : FRuntimeMeshProxy)
    (Proxy : FRuntimeMeshSceneProxy)
    (hfresh : construct ext Component = some Proxy)
    (hvalid : ∀ k, k ∈ Proxy.SectionRenderData.Keys →
      RuntimeMesh.Sections.Find k ≠ some none) :
    ∃ Proxy1, CreateRenderThreadResources ext RuntimeMesh Proxy = some Proxy1 ∧
      Proxy1.SectionRenderData.Keys = Proxy.SectionRenderData.Keys ∧
      Proxy1.SectionRenderData.Num = Proxy.SectionRenderData.Num ∧
      (∀ k rd1, Proxy1.SectionRenderData.Find k = some rd1 →
        ∃ rd, Proxy.SectionRenderData.Find k = some rd ∧ rd1.Material = rd.Material ∧
          (rd1.bWantsAdjacencyInfo = true ↔
            ∃ Section, RuntimeMesh.Sections.Find k = some (some Section) ∧
              ext.RequiresAdjacencyInformation rd.Material Section.VertexFactoryType
                Proxy.Primitive.FeatureLevel = true) ∧
          (RuntimeMesh.Sections.Contains k = false → rd1.bWantsAdjacencyInfo = false)) := by
  have hloop := adjacencyLoop_of_valid ext RuntimeMesh Proxy.Primitive.FeatureLevel
    Proxy.SectionRenderData.Pairs (by
      intro e he
      exact hvalid e.1 (List.mem_map_of_mem Prod.fst he))
  obtain ⟨Proxy1, hrun, _, _, hpairs, _⟩ :=
    CreateRenderThreadResources_of_loop ext RuntimeMesh Proxy _ hloop
  have hflags : ∀ k rd, Proxy.SectionRenderData.Find k = some rd →
      rd.bWantsAdjacencyInfo = false := by
    intro k rd hrd
    unfold construct at hfresh
    split at hfresh
    · exact absurd hfresh (by simp)
    · rename_i Mesh hMesh
      simp only [Option.some.injEq] at hfresh
      subst hfresh
      have h := constructLoop_entries ext Component Mesh.SectionIds _
        (by intro k2 rd2 h2; simp [TMap.Find, TMap.empty, TMap.findIn] at h2) k rd hrd
      rw [h]
  refine ⟨Proxy1, hrun, ?_, ?_, ?_⟩
  · simp only [TMap.Keys, hpairs, List.map_map]
    apply List.map_congr_left
    intro e _
    exact adjacencyEntry_fst ext RuntimeMesh _ e
  · simp only [TMap.Num, hpairs, List.length_map]
  · intro k rd1 hrd1
    simp only [TMap.Find, hpairs, findIn_map_adjacencyEntry] at hrd1
    cases hrd : TMap.findIn k Proxy.SectionRenderData.Pairs with
    | none =>
      rw [hrd] at hrd1
      exact absurd hrd1 (by simp)
    | some rd =>
      rw [hrd] at hrd1
      simp only [Option.map_some', Option.some.injEq] at hrd1
      have hfalse := hflags k rd hrd
      refine ⟨rd, hrd, ?_, ?_, ?_⟩
      · rw [← hrd1]
        unfold adjacencyEntry
        split <;> rfl
      · rw [← hrd1]
        cases hfind : RuntimeMesh.Sections.Find k with
        | none => simp [adjacencyEntry, hfind, hfalse]
        | some ptr =>
          cases ptr with
          | none => simp [adjacencyEntry, hfind, hfalse]
          | some Section => simp [adjacencyEntry, hfind]
      · intro hcont
        have hnone : RuntimeMesh.Sections.Find k = none := by
          simpa [TMap.Contains] using hcont
        rw [← hrd1]
        simp [adjacencyEntry, hnone, hfalse]

/-- Scenario A at resource creation: both entries of the freshly constructed table get
their adjacency flag set, because the example engine requires adjacency for a non-null
material on vertex factory type `1`. -/
theorem CreateRenderThreadResources_adjacency_witness :
    construct exampleExternals (exampleComponent [0, 1] false) =
      some (exampleProxy [0, 1] false) ∧
    (∀ k, k ∈ (exampleProxy [0, 1] false).SectionRenderData.Keys →
      scenarioAMesh.Sections.Find k ≠ some none) ∧
    ∃ Proxy1, CreateRenderThreadResources exampleExternals scenarioAMesh
        (exampleProxy [0, 1] false) = some Proxy1 ∧
      Proxy1.SectionRenderData.Keys = (exampleProxy [0, 1] false).SectionRenderData.Keys ∧
      Proxy1.SectionRenderData.Num = 2 := by
  have hvalid : ∀ k, k ∈ (exampleProxy [0, 1] false).SectionRenderData.Keys →
      scenarioAMesh.Sections.Find k ≠ some none := by
    intro k hk
    have hk2 : k = 0 ∨ k = 1 := by simpa [TMap.Keys, exampleProxy, exampleTable,
      TMap.Add, TMap.addIn, TMap.empty] using hk
    rcases hk2 with h | h <;> subst h <;> decide
  obtain ⟨Proxy1, h1, h2, h3, _⟩ :=
    CreateRenderThreadResources_adjacency exampleExternals (exampleComponent [0, 1] false)
      scenarioAMesh (exampleProxy [0, 1] false) rfl hvalid
  exact ⟨rfl, hvalid, Proxy1, h1, h2, h3⟩

/-- C10: running `CreateRenderThreadResources` twice on an unchanged snapshot gives the
state the first run gives: the second run, started from the result of the first, returns
that same state, so every adjacency flag and the three derived booleans are the same
after both runs. When no section pointer the loop dereferences is null, both runs
succeed. -/
theorem CreateRenderThreadResources_idempotent (ext : Externals)
    (RuntimeMesh : FRuntimeMeshProxy) (Proxy : FRuntimeMeshSceneProxy) :
    ((CreateRenderThreadResources ext RuntimeMesh Proxy).bind
        (CreateRenderThreadResources ext RuntimeMesh)
      = CreateRenderThreadResources ext RuntimeMesh Proxy) ∧
    ((∀ k, k ∈ Proxy.SectionRenderData.Keys → RuntimeMesh.Sections.Find k ≠ some none) →
      ∃ Proxy1, CreateRenderThreadResources ext RuntimeMesh Proxy = some Proxy1 ∧
        CreateRenderThreadResources ext RuntimeMesh Proxy1 = some Proxy1 ∧
        Proxy1.bHasStaticSections = (ext.CalculateViewRelevance RuntimeMesh).1 ∧
        Proxy1.bHasDynamicSections = (ext.CalculateViewRelevance RuntimeMesh).2.1 ∧
        Proxy1.bHasShadowableSections = (ext.CalculateViewRelevance RuntimeMesh).2.2) := by
  have hagain : ∀ Pairs, adjacencyLoop ext RuntimeMesh Proxy.Primitive.FeatureLevel
      Proxy.SectionRenderData.Pairs = some Pairs →
      ∃ Proxy1, CreateRenderThreadResources ext RuntimeMesh Proxy = some Proxy1 ∧
        CreateRenderThreadResources ext RuntimeMesh Proxy1 = some Proxy1 ∧
        Proxy1.bHasStaticSections = (ext.CalculateViewRelevance RuntimeMesh).1 ∧
        Proxy1.bHasDynamicSections = (ext.CalculateViewRelevance RuntimeMesh).2.1 ∧
        Proxy1.bHasShadowableSections = (ext.CalculateViewRelevance RuntimeMesh).2.2 := by
    intro Pairs hloop
    obtain ⟨Proxy1, hrun, hprim, hbody, hpairs, hrel, hs, hd, hsh⟩ :=
      CreateRenderThreadResources_of_loop ext RuntimeMesh Proxy Pairs hloop
    have hloop2 : adjacencyLoop ext RuntimeMesh Proxy1.Primitive.FeatureLevel
        Proxy1.SectionRenderData.Pairs = some Pairs := by
      rw [hprim, hpairs]
      exact adjacencyLoop_again ext RuntimeMesh _ _ _ hloop
    obtain ⟨Proxy2, hrun2, hprim2, hbody2, hpairs2, hrel2, hs2, hd2, hsh2⟩ :=
      CreateRenderThreadResources_of_loop ext RuntimeMesh Proxy1 Pairs hloop2
    have heq : Proxy2 = Proxy1 :=
      FRuntimeMeshSceneProxy.eq_of_fields Proxy2 Proxy1 hprim2 hbody2
        (by rw [hpairs2, hpairs]) hrel2 (by rw [hs2, hs]) (by rw [hd2, hd]) (by rw [hsh2, hsh])
    rw [heq] at hrun2
    exact ⟨Proxy1, hrun, hrun2, hs, hd, hsh⟩
  constructor
  · cases hloop : adjacencyLoop ext RuntimeMesh Proxy.Primitive.FeatureLevel
        Proxy.SectionRenderData.Pairs with
    | none =>
      rw [CreateRenderThreadResources_none ext RuntimeMesh Proxy hloop]
      rfl
    | some Pairs =>
      obtain ⟨Proxy1, hrun, hrun2, _⟩ := hagain Pairs hloop
      rw [hrun]
      exact hrun2
  · intro hvalid
    exact hagain _ (adjacencyLoop_of_valid ext RuntimeMesh Proxy.Primitive.FeatureLevel
      Proxy.SectionRenderData.Pairs (by
        intro e he
        exact hvalid e.1 (List.mem_map_of_mem Prod.fst he)))

/-- Scenario C at resource creation: two runs on the three-section snapshot succeed and
the second returns the state the first returned. -/
theorem CreateRenderThreadResources_idempotent_witness :
    (∀ k, k ∈ (exampleProxy [0, 1, 2] false).SectionRenderData.Keys →
      scenarioCMesh.Sections.Find k ≠ some none) ∧
    ∃ Proxy1, CreateRenderThreadResources exampleExternals scenarioCMesh
        (exampleProxy [0, 1, 2] false) = some Proxy1 ∧
      CreateRenderThreadResources exampleExternals scenarioCMesh Proxy1 = some Proxy1 ∧
      Proxy1.bHasStaticSections = true ∧ Proxy1.bHasDynamicSections = true := by
  have hvalid : ∀ k, k ∈ (exampleProxy [0, 1, 2] false).SectionRenderData.Keys →
      scenarioCMesh.Sections.Find k ≠ some none := by
    intro k hk
    have hk2 : k = 0 ∨ k = 1 ∨ k = 2 := by simpa [TMap.Keys, exampleProxy, exampleTable,
      TMap.Add, TMap.addIn, TMap.empty] using hk
    rcases hk2 with h | h | h <;> subst h <;> decide
  obtain ⟨Proxy1, h1, h2, h3, h4, _⟩ :=
    (CreateRenderThreadResources_idempotent exampleExternals scenarioCMesh
      (exampleProxy [0, 1, 2] false)).2 hvalid
  exact ⟨hvalid, Proxy1, h1, h2, by rw [h3]; rfl, by rw [h4]; rfl⟩

/-! ## Submission loops, iteration by iteration -/

theorem coversSections_mem (Proxy : FRuntimeMeshSceneProxy) (RuntimeMesh : FRuntimeMeshProxy)
    (hcov : coversSections Proxy RuntimeMesh = true)
    (e : SectionId × FRuntimeMeshSectionProxyPtr) (he : e ∈ RuntimeMesh.Sections.Pairs) :
    ∃ RenderData Mat, Proxy.SectionRenderData.Find e.1 = some RenderData ∧
      RenderData.Material = some Mat := by
  unfold coversSections at hcov
  rw [List.all_eq_true] at hcov
  have h := hcov e he
  cases hfind : Proxy.SectionRenderData.Find e.1 with
  | none => simp [hfind] at h
  | some RenderData =>
    simp only [hfind] at h
    obtain ⟨Mat, hMat⟩ := Option.isSome_iff_exists.1 h
    exact ⟨RenderData, Mat, rfl, hMat⟩

theorem staticLoop_eq (Proxy : FRuntimeMeshSceneProxy) :
    ∀ (l : List (SectionId × FRuntimeMeshSectionProxyPtr)) (PDI : FStaticPrimitiveDrawInterface),
      (∀ e, e ∈ l → ∃ RenderData Mat, Proxy.SectionRenderData.Find e.1 = some RenderData ∧
        RenderData.Material = some Mat) →
      staticLoop Proxy l PDI = some ⟨PDI.Draws ++ l.flatMap (staticDraws Proxy)⟩ := by
  intro l
  induction l with
  | nil =>
    intro PDI _
    simp [staticLoop]
  | cons hd tl ih =>
    obtain ⟨Key, SectionPtr⟩ := hd
    intro PDI hcov
    obtain ⟨RenderData, Mat, hfind, hMat⟩ := hcov (Key, SectionPtr) (List.mem_cons_self _ _)
    have htl := fun PDI1 => ih PDI1 (fun e he => hcov e (List.mem_cons_of_mem _ he))
    simp only at hfind
    cases SectionPtr with
    | none => simp [staticLoop, staticDraws, htl]
    | some Section =>
      by_cases hel : (Section.bShouldRender && Section.bWantsToRenderInStaticPath) = true
      · simp [staticLoop, staticDraws, hel, TMap.FindChecked, hfind, hMat, htl,
          FStaticPrimitiveDrawInterface.DrawMesh]
      · simp [staticLoop, staticDraws, hel, htl]

theorem filter_flatMap_key {K V E : Type} [DecidableEq K] (g : K × V → List E) (key : E → K)
    (hkey : ∀ e x, x ∈ g e → key x = e.1) :
    ∀ (l : List (K × V)), (l.map Prod.fst).Nodup → ∀ (k : K) (v : V), (k, v) ∈ l →
      (l.flatMap g).filter (fun x => decide (key x = k)) = g (k, v) := by
  have hnot : ∀ (l : List (K × V)) (k : K), k ∉ l.map Prod.fst →
      (l.flatMap g).filter (fun x => decide (key x = k)) = [] := by
    intro l k hk
    rw [List.filter_eq_nil_iff]
    intro x hx
    obtain ⟨e, he, hxe⟩ := List.mem_flatMap.1 hx
    have h1 := hkey e x hxe
    simp only [decide_eq_true_eq]
    intro h2
    apply hk
    rw [← h2, h1]
    exact List.mem_map_of_mem Prod.fst he
  have hall : ∀ (e : K × V), (g e).filter (fun x => decide (key x = e.1)) = g e := by
    intro e
    rw [List.filter_eq_self]
    intro x hx
    simp [hkey e x hx]
  have hnone : ∀ (e : K × V) (k : K), e.1 ≠ k →
      (g e).filter (fun x => decide (key x = k)) = [] := by
    intro e k hne
    rw [List.filter_eq_nil_iff]
    intro x hx
    simp only [decide_eq_true_eq]
    rw [hkey e x hx]
    exact hne
  intro l
  induction l with
  | nil =>
    intro _ k v h
    simp at h
  | cons hd tl ih =>
    intro hnd k v hmem
    simp only [List.map_cons, List.nodup_cons] at hnd
    simp only [List.flatMap_cons, List.filter_append]
    rcases List.mem_cons.1 hmem with h | h
    · subst h
      rw [hnot tl k hnd.1, List.append_nil]
      exact hall (k, v)
    · have hne : hd.1 ≠ k := by
        intro heq
        apply hnd.1
        rw [heq]
        exact List.mem_map_of_mem Prod.fst h
      rw [hnone hd k hne, List.nil_append]
      exact ih hnd.2 k v h

theorem staticDraws_key (Proxy : FRuntimeMeshSceneProxy)
    (e : SectionId × FRuntimeMeshSectionProxyPtr) (d : FStaticDraw)
    (hd : d ∈ staticDraws Proxy e) : d.SectionKey = e.1 := by
  unfold staticDraws at hd
  split at hd
  · split at hd
    · split at hd
      · split at hd
        · simp only [List.mem_singleton] at hd
          rw [hd]
        · simp at hd
      · simp at hd
    · simp at hd
  · simp at hd

theorem staticDraws_length (Proxy : FRuntimeMeshSceneProxy)
    (e : SectionId × FRuntimeMeshSectionProxyPtr)
    (hcov : ∃ RenderData Mat, Proxy.SectionRenderData.Find e.1 = some RenderData ∧
        RenderData.Material = some Mat) :
    (staticDraws Proxy e).length = if staticEligible e.2 then 1 else 0 := by
  obtain ⟨RenderData, Mat, hfind, hMat⟩ := hcov
  obtain ⟨Key, SectionPtr⟩ := e
  simp only at hfind
  cases SectionPtr with
  | none => simp [staticDraws, staticEligible]
  | some Section =>
    by_cases hel : (Section.bShouldRender && Section.bWantsToRenderInStaticPath) = true
    · simp [staticDraws, staticEligible, hel, hfind, hMat]
    · simp [staticDraws, staticEligible, hel]

theorem flatMap_staticDraws_length (Proxy : FRuntimeMeshSceneProxy) :
    ∀ (l : List (SectionId × FRuntimeMeshSectionProxyPtr)),
      (∀ e, e ∈ l → ∃ RenderData Mat, Proxy.SectionRenderData.Find e.1 = some RenderData ∧
        RenderData.Material = some Mat) →
      (l.flatMap (staticDraws Proxy)).length =
        (l.filter (fun e => staticEligible e.2)).length := by
  intro l
  induction l with
  | nil => intro _; rfl
  | cons hd tl ih =>
    intro hcov
    have h1 := staticDraws_length Proxy hd (hcov hd (List.mem_cons_self _ _))
    have h2 := ih (fun e he => hcov e (List.mem_cons_of_mem _ he))
    simp only [List.flatMap_cons, List.length_append, h1, h2, List.filter_cons]
    cases staticEligible hd.2 <;> simp [Nat.add_comm]

theorem staticDraws_mem (Proxy : FRuntimeMeshSceneProxy)
    (e : SectionId × FRuntimeMeshSectionProxyPtr) (d : FStaticDraw)
    (hd : d ∈ staticDraws Proxy e) :
    ∃ Section RenderData Mat, e.2 = some Section ∧ Section.bShouldRender = true ∧
      Section.bWantsToRenderInStaticPath = true ∧
      Proxy.SectionRenderData.Find e.1 = some RenderData ∧ RenderData.Material = some Mat ∧
      d = ⟨e.1, Proxy.CreateMeshBatch FMeshBatch.default Section RenderData
            (some (Mat.GetRenderProxy false)) none, FScreenSize.FLT_MAX⟩ := by
  unfold staticDraws at hd
  split at hd
  · rename_i Section hSection
    split at hd
    · rename_i hel
      split at hd
      · rename_i RenderData hfind
        split at hd
        · rename_i Mat hMat
          simp only [List.mem_singleton] at hd
          simp only [Bool.and_eq_true] at hel
          exact ⟨Section, RenderData, Mat, hSection, hel.1, hel.2, hfind, hMat, hd⟩
        · simp at hd
      · simp at hd
    · simp at hd
  · simp at hd

/-! ## Static submission -/

/-- C2: when the table covers the snapshot, static submission succeeds and adds, for
each entry of the snapshot, exactly one draw if its pointer is valid and the section
reports both `ShouldRender` and `WantsToRenderInStaticPath`, and none otherwise. Every
draw added is built with no wireframe override: its wireframe flag is clear, its material
is the unselected render proxy of the entry's own material, and it is submitted with
screen size `FLT_MAX`. The number of draws added is the number of snapshot entries that
pass both tests. -/
theorem DrawStaticElements_batches (RuntimeMesh : FRuntimeMeshProxy)
    (Proxy : FRuntimeMeshSceneProxy) (PDI : FStaticPrimitiveDrawInterface)
    (hcov : coversSections Proxy RuntimeMesh = true) :
    ∃ New, DrawStaticElements RuntimeMesh Proxy PDI = some ⟨PDI.Draws ++ New⟩ ∧
      (∀ k ptr, (k, ptr) ∈ RuntimeMesh.Sections.Pairs →
        (New.filter (fun d => decide (d.SectionKey = k))).length =
          if staticEligible ptr then 1 else 0) ∧
      (∀ d, d ∈ New → ∃ Section RenderData Mat,
        (d.SectionKey, some Section) ∈ RuntimeMesh.Sections.Pairs ∧
        Section.bShouldRender = true ∧ Section.bWantsToRenderInStaticPath = true ∧
        Proxy.SectionRenderData.Find d.SectionKey = some RenderData ∧
        RenderData.Material = some Mat ∧
        d.MeshBatch = Proxy.CreateMeshBatch FMeshBatch.default Section RenderData
          (some (Mat.GetRenderProxy false)) none ∧
        d.MeshBatch.bWireframe = false ∧
        d.MeshBatch.MaterialRenderProxy = some (FMaterialRenderProxy.ofMaterial Mat false) ∧
        d.ScreenSize = FScreenSize.FLT_MAX) ∧
      New.length = (RuntimeMesh.Sections.Pairs.filter (fun e => staticEligible e.2)).length := by
  have hc := coversSections_mem Proxy RuntimeMesh hcov
  refine ⟨RuntimeMesh.Sections.Pairs.flatMap (staticDraws Proxy),
    staticLoop_eq Proxy _ PDI hc, ?_, ?_, flatMap_staticDraws_length Proxy _ hc⟩
  · intro k ptr hmem
    rw [filter_flatMap_key (staticDraws Proxy) (fun d => d.SectionKey)
      (staticDraws_key Proxy) _ RuntimeMesh.keysNodup k ptr hmem]
    exact staticDraws_length Proxy (k, ptr) (hc (k, ptr) hmem)
  · intro d hd
    obtain ⟨e, he, hde⟩ := List.mem_flatMap.1 hd
    obtain ⟨Section, RenderData, Mat, hSection, h1, h2, hfind, hMat, hd2⟩ :=
      staticDraws_mem Proxy e d hde
    obtain ⟨Key, SectionPtr⟩ := e
    simp only at hSection hfind
    subst hSection
    subst hd2
    exact ⟨Section, RenderData, Mat, he, h1, h2, hfind, hMat, rfl, rfl, rfl, rfl⟩

/-- Scenario A at static submission: two static-eligible sections give two draws. -/
theorem DrawStaticElements_batches_witness :
    coversSections (exampleProxy [0, 1] false) scenarioAMesh = true ∧
    ∃ New, DrawStaticElements scenarioAMesh (exampleProxy [0, 1] false) ⟨[]⟩ = some ⟨New⟩ ∧
      New.length = 2 := by
  obtain ⟨New, h1, _, _, h4⟩ :=
    DrawStaticElements_batches scenarioAMesh (exampleProxy [0, 1] false) ⟨[]⟩ rfl
  exact ⟨rfl, New, by simpa using h1, by rw [h4]; rfl⟩

/-! ## Dynamic submission -/

theorem and_two_pow_ne_zero_iff (x i : Nat) : (x &&& 2 ^ i) ≠ 0 ↔ x.testBit i = true := by
  constructor
  · intro h
    obtain ⟨j, hj⟩ := Nat.ne_zero_implies_bit_true h
    rw [Nat.testBit_and, Nat.testBit_two_pow] at hj
    simp only [Bool.and_eq_true, decide_eq_true_eq] at hj
    rw [hj.2]
    exact hj.1
  · intro h hzero
    have h2 : (x &&& 2 ^ i).testBit i = true := by
      rw [Nat.testBit_and, h, Nat.testBit_two_pow_self]
      rfl
    rw [hzero] at h2
    simp at h2

theorem visibleInView_eq_testBit (VisibilityMap ViewIndex : Nat) (h : ViewIndex < 32) :
    visibleInView VisibilityMap ViewIndex = VisibilityMap.testBit ViewIndex := by
  have hpow : 2 ^ ViewIndex < 2 ^ 32 := Nat.pow_lt_pow_right (by decide) h
  have hbit : (VisibilityMap % 2 ^ 32).testBit ViewIndex = VisibilityMap.testBit ViewIndex := by
    rw [Nat.testBit_mod_two_pow]
    simp [h]
  unfold visibleInView
  rw [Nat.one_shiftLeft, Nat.mod_eq_of_lt hpow, ← hbit]
  cases hb : (VisibilityMap % 2 ^ 32).testBit ViewIndex with
  | true =>
    have := (and_two_pow_ne_zero_iff (VisibilityMap % 2 ^ 32) ViewIndex).2 hb
    simpa using this
  | false =>
    have : ¬ ((VisibilityMap % 2 ^ 32) &&& 2 ^ ViewIndex) ≠ 0 := by
      intro hne
      have := (and_two_pow_ne_zero_iff (VisibilityMap % 2 ^ 32) ViewIndex).1 hne
      rw [hb] at this
      exact absurd this (by simp)
    simpa using this

theorem viewLoop_eq (ext : Externals) (Proxy : FRuntimeMeshSceneProxy) (VisibilityMap : Nat)
    (W : Option FMaterialRenderProxy) (Key : SectionId) (Section : FRuntimeMeshSectionProxy)
    (RenderData : FRuntimeMeshSectionRenderData) (Mat : UMaterialInterface)
    (hfind : Proxy.SectionRenderData.Find Key = some RenderData)
    (hMat : RenderData.Material = some Mat) :
    ∀ (Views : List FSceneView) (ViewIndex : Nat) (Collector : FMeshElementCollector),
      viewLoop ext Proxy VisibilityMap W Key Section ViewIndex Views Collector =
        some { Collector with
          Meshes := Collector.Meshes ++
            viewMeshes ext Proxy VisibilityMap W Key Section RenderData Mat ViewIndex Views } := by
  intro Views
  induction Views with
  | nil =>
    intro ViewIndex Collector
    simp [viewLoop, viewMeshes]
  | cons View rest ih =>
    intro ViewIndex Collector
    by_cases hvis : visibleInView VisibilityMap ViewIndex = true
    · by_cases hsel : ((ext.IsRichView View.Family || View.Family.EngineShowFlags.Wireframe ||
          Proxy.IsSelected || !ext.bStaticPathAvailable) ||
          !Section.bWantsToRenderInStaticPath) = true
      · simp only [viewLoop, viewMeshes, hvis, hsel, if_true, TMap.FindChecked, hfind, hMat,
          Bool.and_self, ih, FMeshElementCollector.AddMesh, List.append_assoc]
      · simp only [viewLoop, viewMeshes, hvis, hsel, if_true, Bool.true_and, if_false, ih,
          List.nil_append, Bool.false_eq_true]
    · simp only [viewLoop, viewMeshes, hvis, if_false, Bool.false_and, ih, List.nil_append,
        Bool.false_eq_true]

theorem sectionLoop_eq (ext : Externals) (Proxy : FRuntimeMeshSceneProxy)
    (Views : List FSceneView) (VisibilityMap : Nat) (W : Option FMaterialRenderProxy) :
    ∀ (l : List (SectionId × FRuntimeMeshSectionProxyPtr)) (Collector : FMeshElementCollector),
      (∀ e, e ∈ l → ∃ RenderData Mat, Proxy.SectionRenderData.Find e.1 = some RenderData ∧
        RenderData.Material = some Mat) →
      sectionLoop ext Proxy Views VisibilityMap W l Collector =
        some { Collector with
          Meshes := Collector.Meshes ++
            l.flatMap (sectionMeshes ext Proxy Views VisibilityMap W) } := by
  intro l
  induction l with
  | nil =>
    intro Collector _
    simp [sectionLoop]
  | cons hd tl ih =>
    obtain ⟨Key, SectionPtr⟩ := hd
    intro Collector hcov
    obtain ⟨RenderData, Mat, hfind, hMat⟩ := hcov (Key, SectionPtr) (List.mem_cons_self _ _)
    have htl := fun C => ih C (fun e he => hcov e (List.mem_cons_of_mem _ he))
    simp only at hfind
    cases SectionPtr with
    | none => simp [sectionLoop, sectionMeshes, htl]
    | some Section =>
      by_cases hr : Section.bShouldRender = true
      · simp [sectionLoop, sectionMeshes, hr, hfind, hMat, htl,
          viewLoop_eq ext Proxy VisibilityMap W Key Section RenderData Mat hfind hMat]
      · simp [sectionLoop, sectionMeshes, hr, htl]

theorem debugLoop_Meshes (Proxy : FRuntimeMeshSceneProxy) (ViewFamily : FSceneViewFamily)
    (VisibilityMap : Nat) :
    ∀ (Views : List FSceneView) (ViewIndex : Nat) (Collector : FMeshElementCollector),
      (debugLoop Proxy ViewFamily VisibilityMap ViewIndex Views Collector).Meshes =
        Collector.Meshes ∧
      (debugLoop Proxy ViewFamily VisibilityMap ViewIndex Views
        Collector).OneFrameMaterialProxies = Collector.OneFrameMaterialProxies := by
  intro Views
  induction Views with
  | nil =>
    intro ViewIndex Collector
    exact ⟨rfl, rfl⟩
  | cons View rest ih =>
    intro ViewIndex Collector
    simp only [debugLoop]
    split
    · split
      · rw [(ih _ _).1, (ih _ _).2]
        exact ⟨rfl, rfl⟩
      · rw [(ih _ _).1, (ih _ _).2]
        exact ⟨rfl, rfl⟩
    · exact ih _ _

theorem GetDynamicMeshElements_eq (ext : Externals) (RuntimeMesh : FRuntimeMeshProxy)
    (Proxy : FRuntimeMeshSceneProxy) (Views : List FSceneView) (ViewFamily : FSceneViewFamily)
    (VisibilityMap : Nat) (Collector : FMeshElementCollector)
    (hcov : coversSections Proxy RuntimeMesh = true) :
    ∃ Collector1,
      GetDynamicMeshElements ext RuntimeMesh Proxy Views ViewFamily VisibilityMap Collector
        = some Collector1 ∧
      Collector1.Meshes = Collector.Meshes ++
        RuntimeMesh.Sections.Pairs.flatMap
          (sectionMeshes ext Proxy Views VisibilityMap
            (wireframeMaterialInstance ext Proxy ViewFamily)) ∧
      Collector1.OneFrameMaterialProxies = Collector.OneFrameMaterialProxies ++
        (match wireframeMaterialInstance ext Proxy ViewFamily with
         | some W => [W]
         | none => []) := by
  have hc := coversSections_mem Proxy RuntimeMesh hcov
  unfold GetDynamicMeshElements
  simp only
  rw [sectionLoop_eq ext Proxy Views VisibilityMap _ _ _ hc]
  simp only
  cases hW : wireframeMaterialInstance ext Proxy ViewFamily with
  | none =>
    cases ext.bDebugDrawCompiledIn with
    | true =>
      refine ⟨_, rfl, ?_, ?_⟩
      · rw [(debugLoop_Meshes Proxy ViewFamily VisibilityMap Views 0 _).1]
      · rw [(debugLoop_Meshes Proxy ViewFamily VisibilityMap Views 0 _).2]
        simp
    | false =>
      refine ⟨_, rfl, rfl, ?_⟩
      simp
  | some W =>
    cases ext.bDebugDrawCompiledIn with
    | true =>
      refine ⟨_, rfl, ?_, ?_⟩
      · rw [(debugLoop_Meshes Proxy ViewFamily VisibilityMap Views 0 _).1]
        rfl
      · rw [(debugLoop_Meshes Proxy ViewFamily VisibilityMap Views 0 _).2]
        rfl
    | false =>
      exact ⟨_, rfl, rfl, rfl⟩

theorem viewMeshes_mem (ext : Externals) (Proxy : FRuntimeMeshSceneProxy) (VisibilityMap : Nat)
    (W : Option FMaterialRenderProxy) (Key : SectionId) (Section : FRuntimeMeshSectionProxy)
    (RenderData : FRuntimeMeshSectionRenderData) (Mat : UMaterialInterface) :
    ∀ (Views : List FSceneView) (ViewIndex : Nat) (m : FCollectedMesh),
      m ∈ viewMeshes ext Proxy VisibilityMap W Key Section RenderData Mat ViewIndex Views →
      m.SectionKey = Key ∧ ViewIndex ≤ m.ViewIndex ∧ m.ViewIndex < ViewIndex + Views.length ∧
      m.MeshBatch = Proxy.CreateMeshBatch FMeshBatch.default Section RenderData
        (some (Mat.GetRenderProxy Proxy.IsSelected)) W := by
  intro Views
  induction Views with
  | nil =>
    intro ViewIndex m hm
    simp [viewMeshes] at hm
  | cons View rest ih =>
    intro ViewIndex m hm
    simp only [viewMeshes, List.mem_append] at hm
    rcases hm with hm | hm
    · split at hm
      · simp only [List.mem_singleton] at hm
        subst hm
        simp
      · simp at hm
    · obtain ⟨h1, h2, h3, h4⟩ := ih (ViewIndex + 1) m hm
      refine ⟨h1, by omega, ?_, h4⟩
      simp only [List.length_cons]
      omega

theorem viewMeshes_filter (ext : Externals) (Proxy : FRuntimeMeshSceneProxy)
    (VisibilityMap : Nat) (W : Option FMaterialRenderProxy) (Key : SectionId)
    (Section : FRuntimeMeshSectionProxy) (RenderData : FRuntimeMeshSectionRenderData)
    (Mat : UMaterialInterface) :
    ∀ (Views : List FSceneView) (ViewIndex j : Nat) (View : FSceneView),
      Views[j]? = some View →
      ((viewMeshes ext Proxy VisibilityMap W Key Section RenderData Mat ViewIndex Views).filter
        (fun m => decide (m.ViewIndex = ViewIndex + j))).length =
        if visibleInView VisibilityMap (ViewIndex + j) &&
            ((ext.IsRichView View.Family || View.Family.EngineShowFlags.Wireframe ||
              Proxy.IsSelected || !ext.bStaticPathAvailable) ||
              !Section.bWantsToRenderInStaticPath) then 1 else 0 := by
  intro Views
  induction Views with
  | nil =>
    intro ViewIndex j View h
    simp at h
  | cons View0 rest ih =>
    intro ViewIndex j View h
    have hrest : ∀ i, i ≤ ViewIndex →
        (viewMeshes ext Proxy VisibilityMap W Key Section RenderData Mat (ViewIndex + 1)
          rest).filter (fun m => decide (m.ViewIndex = i)) = [] := by
      intro i hi
      rw [List.filter_eq_nil_iff]
      intro m hm
      have := (viewMeshes_mem ext Proxy VisibilityMap W Key Section RenderData Mat rest
        (ViewIndex + 1) m hm).2.1
      simp only [decide_eq_true_eq]
      omega
    cases j with
    | zero =>
      simp only [List.getElem?_cons_zero, Option.some.injEq] at h
      subst h
      simp only [viewMeshes, List.filter_append, Nat.add_zero, List.length_append]
      rw [hrest ViewIndex (Nat.le_refl _)]
      split <;> simp
    | succ j =>
      simp only [List.getElem?_cons_succ] at h
      have hih := ih (ViewIndex + 1) j View h
      have hidx : ViewIndex + 1 + j = ViewIndex + (j + 1) := by omega
      rw [hidx] at hih
      simp only [viewMeshes, List.filter_append, List.length_append, hih]
      have hhead : ((if visibleInView VisibilityMap ViewIndex &&
            ((ext.IsRichView View0.Family || View0.Family.EngineShowFlags.Wireframe ||
              Proxy.IsSelected || !ext.bStaticPathAvailable) ||
              !Section.bWantsToRenderInStaticPath) then
          [(⟨Key, ViewIndex, Proxy.CreateMeshBatch FMeshBatch.default Section RenderData
              (some (Mat.GetRenderProxy Proxy.IsSelected)) W⟩ : FCollectedMesh)]
          else []).filter (fun m => decide (m.ViewIndex = ViewIndex + (j + 1)))) = [] := by
        rw [List.filter_eq_nil_iff]
        intro m hm
        split at hm
        · simp only [List.mem_singleton] at hm
          subst hm
          simp
        · simp at hm
      rw [hhead]
      simp

theorem sectionMeshes_mem (ext : Externals) (Proxy : FRuntimeMeshSceneProxy)
    (Views : List FSceneView) (VisibilityMap : Nat) (W : Option FMaterialRenderProxy)
    (e : SectionId × FRuntimeMeshSectionProxyPtr) (m : FCollectedMesh)
    (hm : m ∈ sectionMeshes ext Proxy Views VisibilityMap W e) :
    ∃ Section RenderData Mat, e.2 = some Section ∧ Section.bShouldRender = true ∧
      Proxy.SectionRenderData.Find e.1 = some RenderData ∧ RenderData.Material = some Mat ∧
      m.SectionKey = e.1 ∧ m.ViewIndex < Views.length ∧
      m.MeshBatch = Proxy.CreateMeshBatch FMeshBatch.default Section RenderData
        (some (Mat.GetRenderProxy Proxy.IsSelected)) W := by
  unfold sectionMeshes at hm
  split at hm
  · rename_i Section hSection
    split at hm
    · rename_i hr
      split at hm
      · rename_i RenderData hfind
        split at hm
        · rename_i Mat hMat
          obtain ⟨h1, _, h3, h4⟩ := viewMeshes_mem ext Proxy VisibilityMap W e.1 Section
            RenderData Mat Views 0 m hm
          exact ⟨Section, RenderData, Mat, hSection, hr, hfind, hMat, h1, by omega, h4⟩
        · simp at hm
      · simp at hm
    · simp at hm
  · simp at hm

theorem sectionMeshes_key (ext : Externals) (Proxy : FRuntimeMeshSceneProxy)
    (Views : List FSceneView) (VisibilityMap : Nat) (W : Option FMaterialRenderProxy)
    (e : SectionId × FRuntimeMeshSectionProxyPtr) (m : FCollectedMesh)
    (hm : m ∈ sectionMeshes ext Proxy Views VisibilityMap W e) : m.SectionKey = e.1 := by
  obtain ⟨_, _, _, _, _, _, _, h, _⟩ := sectionMeshes_mem ext Proxy Views VisibilityMap W e m hm
  exact h

theorem sectionMeshes_filter (ext : Externals) (Proxy : FRuntimeMeshSceneProxy)
    (Views : List FSceneView) (VisibilityMap : Nat) (W : Option FMaterialRenderProxy)
    (e : SectionId × FRuntimeMeshSectionProxyPtr)
    (hcov : ∃ RenderData Mat, Proxy.SectionRenderData.Find e.1 = some RenderData ∧
        RenderData.Material = some Mat)
    (i : Nat) (View : FSceneView) (hView : Views[i]? = some View) (hi : i < 32) :
    ((sectionMeshes ext Proxy Views VisibilityMap W e).filter
      (fun m => decide (m.ViewIndex = i))).length =
      if (VisibilityMap.testBit i &&
          match e.2 with
          | some Section =>
            Section.bShouldRender &&
              (!ext.bStaticPathAvailable || ext.IsRichView View.Family || Proxy.IsSelected ||
                View.Family.EngineShowFlags.Wireframe || !Section.bWantsToRenderInStaticPath)
          | none => false) then 1 else 0 := by
  obtain ⟨RenderData, Mat, hfind, hMat⟩ := hcov
  obtain ⟨Key, SectionPtr⟩ := e
  simp only at hfind
  cases SectionPtr with
  | none => simp [sectionMeshes]
  | some Section =>
    by_cases hr : Section.bShouldRender = true
    · have h := viewMeshes_filter ext Proxy VisibilityMap W Key Section RenderData Mat Views 0 i
        View hView
      simp only [Nat.zero_add] at h
      simp only [sectionMeshes, hr, if_true, hfind, hMat, h, Bool.true_and,
        visibleInView_eq_testBit VisibilityMap i hi]
      cases VisibilityMap.testBit i <;> cases ext.bStaticPathAvailable <;>
        cases ext.IsRichView View.Family <;> cases Proxy.IsSelected <;>
        cases View.Family.EngineShowFlags.Wireframe <;>
        cases Section.bWantsToRenderInStaticPath <;> rfl
    · simp [sectionMeshes, hr]

/-- C1: when the table covers the snapshot and there are at most 32 views (the width of
the visibility map), dynamic submission succeeds, and for every entry of the snapshot and
every view index the number of meshes it adds for that entry and that view is one if bit
`i` of the visibility map is set, the section pointer is valid and reports `ShouldRender`,
and either the static path is unavailable, or the view is a rich view, or the node is
selected, or the view is in wireframe mode, or the section declines the static path; it
is zero otherwise. No mesh is added for any other key or view index. -/
theorem GetDynamicMeshElements_policy (ext : Externals) (RuntimeMesh : FRuntimeMeshProxy)
    (Proxy : FRuntimeMeshSceneProxy) (Views : List FSceneView) (ViewFamily : FSceneViewFamily)
    (VisibilityMap : Nat) (Collector : FMeshElementCollector)
    (hcov : coversSections Proxy RuntimeMesh = true) (hviews : Views.length ≤ 32) :
    ∃ Collector1 New,
      GetDynamicMeshElements ext RuntimeMesh Proxy Views ViewFamily VisibilityMap Collector
        = some Collector1 ∧
      Collector1.Meshes = Collector.Meshes ++ New ∧
      (∀ k ptr i View, (k, ptr) ∈ RuntimeMesh.Sections.Pairs → Views[i]? = some View →
        (New.filter (fun m => decide (m.SectionKey = k) && decide (m.ViewIndex = i))).length =
          if (VisibilityMap.testBit i &&
              match ptr with
              | some Section =>
                Section.bShouldRender &&
                  (!ext.bStaticPathAvailable || ext.IsRichView View.Family ||
                    Proxy.IsSelected || View.Family.EngineShowFlags.Wireframe ||
                    !Section.bWantsToRenderInStaticPath)
              | none => false) then 1 else 0) ∧
      (∀ m, m ∈ New →
        (∃ ptr, (m.SectionKey, ptr) ∈ RuntimeMesh.Sections.Pairs) ∧
        m.ViewIndex < Views.length) := by
  have hc := coversSections_mem Proxy RuntimeMesh hcov
  obtain ⟨Collector1, hrun, hmeshes, _⟩ :=
    GetDynamicMeshElements_eq ext RuntimeMesh Proxy Views ViewFamily VisibilityMap Collector hcov
  refine ⟨Collector1, _, hrun, hmeshes, ?_, ?_⟩
  · intro k ptr i View hmem hView
    have hi : i < 32 := by
      have := (List.getElem?_eq_some_iff.1 hView).1
      omega
    have hswap : (fun m : FCollectedMesh =>
        decide (m.SectionKey = k) && decide (m.ViewIndex = i)) =
        (fun m => decide (m.ViewIndex = i) && decide (m.SectionKey = k)) := by
      funext m
      exact Bool.and_comm _ _
    rw [hswap, ← List.filter_filter]
    rw [filter_flatMap_key (sectionMeshes ext Proxy Views VisibilityMap _)
      (fun m => m.SectionKey) (sectionMeshes_key ext Proxy Views VisibilityMap _) _
      RuntimeMesh.keysNodup k ptr hmem]
    exact sectionMeshes_filter ext Proxy Views VisibilityMap _ (k, ptr) (hc (k, ptr) hmem)
      i View hView hi
  · intro m hm
    obtain ⟨e, he, hme⟩ := List.mem_flatMap.1 hm
    obtain ⟨_, _, _, _, _, _, _, hkey, hidx, _⟩ :=
      sectionMeshes_mem ext Proxy Views VisibilityMap _ e m hme
    refine ⟨⟨e.2, ?_⟩, hidx⟩
    rw [hkey]
    exact he

/-- Scenario C in an ordinary view: the two static-eligible sections get no dynamic mesh,
the section that declines the static path gets exactly one. -/
theorem GetDynamicMeshElements_policy_witness :
    coversSections (exampleProxy [0, 1, 2] false) scenarioCMesh = true ∧
    [(⟨plainFamily, 0⟩ : FSceneView)].length ≤ 32 ∧
    ∃ Collector1 New,
      GetDynamicMeshElements exampleExternals scenarioCMesh (exampleProxy [0, 1, 2] false)
        [⟨plainFamily, 0⟩] plainFamily 1 FMeshElementCollector.empty = some Collector1 ∧
      Collector1.Meshes = New ∧
      (New.filter (fun m => decide (m.SectionKey = 0) && decide (m.ViewIndex = 0))).length = 0 ∧
      (New.filter (fun m => decide (m.SectionKey = 1) && decide (m.ViewIndex = 0))).length = 0 ∧
      (New.filter (fun m => decide (m.SectionKey = 2) && decide (m.ViewIndex = 0))).length = 1 := by
  obtain ⟨Collector1, New, h1, h2, h3, _⟩ :=
    GetDynamicMeshElements_policy exampleExternals scenarioCMesh (exampleProxy [0, 1, 2] false)
      [⟨plainFamily, 0⟩] plainFamily 1 FMeshElementCollector.empty rfl (by decide)
  refine ⟨rfl, by decide, Collector1, New, h1, by simpa [FMeshElementCollector.empty] using h2,
    ?_, ?_, ?_⟩
  · exact (h3 0 (some (exampleSection true)) 0 ⟨plainFamily, 0⟩
      (by simp [scenarioCMesh]) rfl).trans rfl
  · exact (h3 1 (some (exampleSection true)) 0 ⟨plainFamily, 0⟩
      (by simp [scenarioCMesh]) rfl).trans rfl
  · exact (h3 2 (some (exampleSection false)) 0 ⟨plainFamily, 0⟩
      (by simp [scenarioCMesh]) rfl).trans rfl

/-! ## Wireframe override -/

/-- C8: when the table covers the snapshot, dynamic submission succeeds. If debug view
modes are allowed and the view family is in wireframe mode, one override proxy is made
and registered for the call, it is not any material's own render proxy, and every mesh
added has its wireframe flag set, carries that override as its material and requests no
adjacency geometry. Otherwise no proxy is registered and every mesh added has its
wireframe flag clear and carries the render proxy of its own entry's material, selected
exactly when the node is selected. -/
theorem GetDynamicMeshElements_wireframe (ext : Externals) (RuntimeMesh : FRuntimeMeshProxy)
    (Proxy : FRuntimeMeshSceneProxy) (Views : List FSceneView) (ViewFamily : FSceneViewFamily)
    (VisibilityMap : Nat) (Collector : FMeshElementCollector)
    (hcov : coversSections Proxy RuntimeMesh = true) :
    ∃ Collector1 New,
      GetDynamicMeshElements ext RuntimeMesh Proxy Views ViewFamily VisibilityMap Collector
        = some Collector1 ∧
      Collector1.Meshes = Collector.Meshes ++ New ∧
      ((ext.bAllowDebugViewmodes = true ∧ ViewFamily.EngineShowFlags.Wireframe = true) →
        ∃ W, Collector1.OneFrameMaterialProxies = Collector.OneFrameMaterialProxies ++ [W] ∧
          (∀ Mat bSelected, W ≠ FMaterialRenderProxy.ofMaterial Mat bSelected) ∧
          ∀ m, m ∈ New →
            m.MeshBatch.bWireframe = true ∧ m.MeshBatch.MaterialRenderProxy = some W ∧
            ∃ Section, m.MeshBatch.Geometry = some ⟨Section, false⟩) ∧
      (¬ (ext.bAllowDebugViewmodes = true ∧ ViewFamily.EngineShowFlags.Wireframe = true) →
        Collector1.OneFrameMaterialProxies = Collector.OneFrameMaterialProxies ∧
        ∀ m, m ∈ New →
          m.MeshBatch.bWireframe = false ∧
          ∃ RenderData Mat, Proxy.SectionRenderData.Find m.SectionKey = some RenderData ∧
            RenderData.Material = some Mat ∧
            m.MeshBatch.MaterialRenderProxy =
              some (FMaterialRenderProxy.ofMaterial Mat Proxy.IsSelected)) := by
  obtain ⟨Collector1, hrun, hmeshes, hproxies⟩ :=
    GetDynamicMeshElements_eq ext RuntimeMesh Proxy Views ViewFamily VisibilityMap Collector hcov
  refine ⟨Collector1, _, hrun, hmeshes, ?_, ?_⟩
  · intro hw
    have hW : wireframeMaterialInstance ext Proxy ViewFamily =
        some (FMaterialRenderProxy.colored
          (match ext.WireframeMaterial with
           | some M => some (M, Proxy.IsSelected)
           | none => none) ⟨0, 1 / 2, 1⟩) := by
      simp [wireframeMaterialInstance, hw.1, hw.2]
    rw [hW] at hproxies
    refine ⟨_, hproxies, ?_, ?_⟩
    · intro Mat bSelected h
      exact FMaterialRenderProxy.noConfusion h
    · intro m hm
      obtain ⟨e, _, hme⟩ := List.mem_flatMap.1 hm
      obtain ⟨Section, RenderData, Mat, _, _, _, _, _, _, hbatch⟩ :=
        sectionMeshes_mem ext Proxy Views VisibilityMap _ e m hme
      rw [hbatch, hW]
      exact ⟨rfl, rfl, Section, rfl⟩
  · intro hw
    have hW : wireframeMaterialInstance ext Proxy ViewFamily = none := by
      simp only [wireframeMaterialInstance]
      split
      · rename_i h
        simp only [Bool.and_eq_true] at h
        exact absurd h hw
      · rfl
    rw [hW] at hproxies
    refine ⟨by simpa using hproxies, ?_⟩
    intro m hm
    obtain ⟨e, _, hme⟩ := List.mem_flatMap.1 hm
    obtain ⟨Section, RenderData, Mat, _, _, hfind, hMat, hkey, _, hbatch⟩ :=
      sectionMeshes_mem ext Proxy Views VisibilityMap _ e m hme
    rw [hbatch, hW, hkey]
    exact ⟨rfl, RenderData, Mat, hfind, hMat, rfl⟩

/-- Scenario C in wireframe mode: dynamic submission registers one override proxy and
succeeds. -/
theorem GetDynamicMeshElements_wireframe_witness :
    coversSections (exampleProxy [0, 1, 2] false) scenarioCMesh = true ∧
    (exampleExternals.bAllowDebugViewmodes = true ∧
      wireframeFamily.EngineShowFlags.Wireframe = true) ∧
    ∃ Collector1 W,
      GetDynamicMeshElements exampleExternals scenarioCMesh (exampleProxy [0, 1, 2] false)
        [⟨wireframeFamily, 0⟩] wireframeFamily 1 FMeshElementCollector.empty
        = some Collector1 ∧
      Collector1.OneFrameMaterialProxies = [W] ∧
      ∀ m, m ∈ Collector1.Meshes →
        m.MeshBatch.bWireframe = true ∧ m.MeshBatch.MaterialRenderProxy = some W := by
  obtain ⟨Collector1, New, h1, h2, h3, _⟩ :=
    GetDynamicMeshElements_wireframe exampleExternals scenarioCMesh
      (exampleProxy [0, 1, 2] false) [⟨wireframeFamily, 0⟩] wireframeFamily 1
      FMeshElementCollector.empty rfl
  obtain ⟨W, hW1, _, hW3⟩ := h3 ⟨rfl, rfl⟩
  refine ⟨rfl, ⟨rfl, rfl⟩, Collector1, W, h1, by simpa [FMeshElementCollector.empty] using hW1,
    ?_⟩
  intro m hm
  have hm2 : m ∈ New := by simpa [h2, FMeshElementCollector.empty] using hm
  exact ⟨(hW3 m hm2).1, (hW3 m hm2).2.1⟩

/-! ## Static submission under a force-dynamic condition -/

/-- C3, as stated, fails: in Scenario C the view family is in wireframe mode, which forces
the dynamic path, and static submission still adds two draws, one for each
static-eligible section. -/
theorem DrawStaticElements_wireframe_two_draws :
    (exampleProxy [0, 1, 2] false).forceDynamicPath exampleExternals wireframeFamily = true ∧
    (DrawStaticElements scenarioCMesh (exampleProxy [0, 1, 2] false) ⟨[]⟩).map
        (fun PDI => PDI.Draws.length) = some 2 ∧
    ¬ ((DrawStaticElements scenarioCMesh (exampleProxy [0, 1, 2] false) ⟨[]⟩).map
        (fun PDI => PDI.Draws.length) = some 0) := by
  refine ⟨rfl, rfl, ?_⟩
  intro h
  have h2 : (DrawStaticElements scenarioCMesh (exampleProxy [0, 1, 2] false) ⟨[]⟩).map
      (fun PDI => PDI.Draws.length) = some 2 := rfl
  rw [h2] at h
  exact absurd h (by decide)

/-- C3, amended: when the table covers the snapshot, there are at most 32 views and a
force-dynamic condition holds for every view, the relevance query reports dynamic
relevance and no static relevance for every view, and dynamic submission succeeds and
adds exactly one mesh for every entry whose section is valid and reports `ShouldRender`
in every view whose bit is set, whatever the section's static eligibility. Static
submission takes no view state: it succeeds and adds one draw for each entry that is
render-eligible and static-eligible. -/
theorem force_dynamic_submission (ext : Externals) (RuntimeMesh : FRuntimeMeshProxy)
    (Proxy : FRuntimeMeshSceneProxy) (Views : List FSceneView) (ViewFamily : FSceneViewFamily)
    (VisibilityMap : Nat) (Collector : FMeshElementCollector)
    (PDI : FStaticPrimitiveDrawInterface)
    (hcov : coversSections Proxy RuntimeMesh = true) (hviews : Views.length ≤ 32)
    (hforce : ∀ View, View ∈ Views → Proxy.forceDynamicPath ext View.Family = true) :
    (∀ View, View ∈ Views →
      (Proxy.GetViewRelevance ext View).bStaticRelevance = false ∧
      (Proxy.GetViewRelevance ext View).bDynamicRelevance = true) ∧
    (∃ Collector1 New,
      GetDynamicMeshElements ext RuntimeMesh Proxy Views ViewFamily VisibilityMap Collector
        = some Collector1 ∧
      Collector1.Meshes = Collector.Meshes ++ New ∧
      ∀ k ptr i, (k, ptr) ∈ RuntimeMesh.Sections.Pairs → i < Views.length →
        (New.filter (fun m => decide (m.SectionKey = k) && decide (m.ViewIndex = i))).length =
          if (VisibilityMap.testBit i && renderEligible ptr) then 1 else 0) ∧
    (∃ NewDraws, DrawStaticElements RuntimeMesh Proxy PDI = some ⟨PDI.Draws ++ NewDraws⟩ ∧
      NewDraws.length =
        (RuntimeMesh.Sections.Pairs.filter (fun e => staticEligible e.2)).length) := by
  have hc := coversSections_mem Proxy RuntimeMesh hcov
  refine ⟨?_, ?_, ?_⟩
  · intro View hView
    have hf := hforce View hView
    simp only [forceDynamicPath] at hf
    simp only [GetViewRelevance, hf]
    exact ⟨rfl, rfl⟩
  · obtain ⟨Collector1, hrun, hmeshes, _⟩ :=
      GetDynamicMeshElements_eq ext RuntimeMesh Proxy Views ViewFamily VisibilityMap Collector
        hcov
    refine ⟨Collector1, _, hrun, hmeshes, ?_⟩
    intro k ptr i hmem hi
    have hView : Views[i]? = some Views[i] := List.getElem?_eq_getElem hi
    have hf := hforce Views[i] (List.getElem_mem hi)
    have hswap : (fun m : FCollectedMesh =>
        decide (m.SectionKey = k) && decide (m.ViewIndex = i)) =
        (fun m => decide (m.ViewIndex = i) && decide (m.SectionKey = k)) := by
      funext m
      exact Bool.and_comm _ _
    rw [hswap, ← List.filter_filter]
    rw [filter_flatMap_key (sectionMeshes ext Proxy Views VisibilityMap _)
      (fun m => m.SectionKey) (sectionMeshes_key ext Proxy Views VisibilityMap _) _
      RuntimeMesh.keysNodup k ptr hmem]
    rw [sectionMeshes_filter ext Proxy Views VisibilityMap _ (k, ptr) (hc (k, ptr) hmem)
      i Views[i] hView (by omega)]
    simp only [forceDynamicPath] at hf
    cases ptr with
    | none => simp [renderEligible]
    | some Section =>
      simp only [renderEligible, hf, Bool.true_or, Bool.and_true]
  · exact ⟨RuntimeMesh.Sections.Pairs.flatMap (staticDraws Proxy),
      staticLoop_eq Proxy _ PDI hc, flatMap_staticDraws_length Proxy _ hc⟩

/-- Scenario C in wireframe mode and Scenario B with the node selected: in Scenario C
dynamic submission adds a mesh for each of the three sections in the visible view and
static submission adds two draws; in Scenario B the relevance query reports dynamic
relevance only, dynamic submission adds the section's mesh and static submission adds
one draw. -/
theorem force_dynamic_submission_witness :
    (coversSections (exampleProxy [0, 1, 2] false) scenarioCMesh = true ∧
      (∀ View, View ∈ [(⟨wireframeFamily, 0⟩ : FSceneView)] →
        (exampleProxy [0, 1, 2] false).forceDynamicPath exampleExternals View.Family = true) ∧
      (∃ Collector1,
        GetDynamicMeshElements exampleExternals scenarioCMesh (exampleProxy [0, 1, 2] false)
          [⟨wireframeFamily, 0⟩] wireframeFamily 1 FMeshElementCollector.empty
          = some Collector1 ∧
        ∀ k, k ∈ [(0 : SectionId), 1, 2] →
          (Collector1.Meshes.filter
            (fun m => decide (m.SectionKey = k) && decide (m.ViewIndex = 0))).length = 1) ∧
      (∃ NewDraws, DrawStaticElements scenarioCMesh (exampleProxy [0, 1, 2] false) ⟨[]⟩
          = some ⟨NewDraws⟩ ∧ NewDraws.length = 2)) ∧
    (coversSections (exampleProxy [0] true) scenarioBMesh = true ∧
      ((exampleProxy [0] true).GetViewRelevance exampleExternals
          ⟨plainFamily, 0⟩).bStaticRelevance = false ∧
      ((exampleProxy [0] true).GetViewRelevance exampleExternals
          ⟨plainFamily, 0⟩).bDynamicRelevance = true ∧
      (∃ Collector1,
        GetDynamicMeshElements exampleExternals scenarioBMesh (exampleProxy [0] true)
          [⟨plainFamily, 0⟩] plainFamily 1 FMeshElementCollector.empty = some Collector1 ∧
        (Collector1.Meshes.filter
          (fun m => decide (m.SectionKey = 0) && decide (m.ViewIndex = 0))).length = 1) ∧
      (∃ NewDraws, DrawStaticElements scenarioBMesh (exampleProxy [0] true) ⟨[]⟩
          = some ⟨NewDraws⟩ ∧ NewDraws.length = 1)) := by
  have hforceC : ∀ View, View ∈ [(⟨wireframeFamily, 0⟩ : FSceneView)] →
      (exampleProxy [0, 1, 2] false).forceDynamicPath exampleExternals View.Family = true := by
    intro View hView
    simp only [List.mem_singleton] at hView
    subst hView
    rfl
  have hforceB : ∀ View, View ∈ [(⟨plainFamily, 0⟩ : FSceneView)] →
      (exampleProxy [0] true).forceDynamicPath exampleExternals View.Family = true := by
    intro View hView
    simp only [List.mem_singleton] at hView
    subst hView
    rfl
  obtain ⟨_, ⟨CC, NewC, hC1, hC2, hC3⟩, ⟨DrawsC, hC4, hC5⟩⟩ :=
    force_dynamic_submission exampleExternals scenarioCMesh (exampleProxy [0, 1, 2] false)
      [⟨wireframeFamily, 0⟩] wireframeFamily 1 FMeshElementCollector.empty ⟨[]⟩ rfl
      (by decide) hforceC
  obtain ⟨hB0, ⟨CB, NewB, hB1, hB2, hB3⟩, ⟨DrawsB, hB4, hB5⟩⟩ :=
    force_dynamic_submission exampleExternals scenarioBMesh (exampleProxy [0] true)
      [⟨plainFamily, 0⟩] plainFamily 1 FMeshElementCollector.empty ⟨[]⟩ rfl
      (by decide) hforceB
  have hCm : CC.Meshes = NewC := by simpa [FMeshElementCollector.empty] using hC2
  have hBm : CB.Meshes = NewB := by simpa [FMeshElementCollector.empty] using hB2
  refine ⟨⟨rfl, hforceC, ⟨CC, hC1, ?_⟩, ⟨DrawsC, by simpa using hC4, by rw [hC5]; rfl⟩⟩,
    ⟨rfl, (hB0 _ (List.mem_singleton_self _)).1, (hB0 _ (List.mem_singleton_self _)).2,
      ⟨CB, hB1, ?_⟩, ⟨DrawsB, by simpa using hB4, by rw [hB5]; rfl⟩⟩⟩
  · intro k hk
    rw [hCm]
    simp only [List.mem_cons, List.mem_singleton, List.not_mem_nil, or_false] at hk
    rcases hk with h | h | h
    · subst h
      exact (hC3 0 (some (exampleSection true)) 0 (by simp [scenarioCMesh])
        (by decide)).trans rfl
    · subst h
      exact (hC3 1 (some (exampleSection true)) 0 (by simp [scenarioCMesh])
        (by decide)).trans rfl
    · subst h
      exact (hC3 2 (some (exampleSection false)) 0 (by simp [scenarioCMesh])
        (by decide)).trans rfl
  · rw [hBm]
    exact (hB3 0 (some (exampleSection true)) 0 (by simp [scenarioBMesh]) (by decide)).trans rfl

/-! ## A snapshot section that the table does not know -/

/-- C7 at a failing input: the proxy was constructed for section id `0` only and the
snapshot now also holds section `1`, valid and render-eligible. Static submission and
dynamic submission both stop at the checked lookup of key `1`, whereas on the snapshot
without that section they succeed with one draw and one mesh. -/
theorem submission_fails_on_unknown_section :
    construct exampleExternals (exampleComponent [0] true) = some (exampleProxy [0] true) ∧
    (exampleProxy [0] true).SectionRenderData.Find 1 = none ∧
    DrawStaticElements scenarioAMesh (exampleProxy [0] true) ⟨[]⟩ = none ∧
    GetDynamicMeshElements exampleExternals scenarioAMesh (exampleProxy [0] true)
      [⟨plainFamily, 0⟩] plainFamily 1 FMeshElementCollector.empty = none ∧
    (DrawStaticElements scenarioBMesh (exampleProxy [0] true) ⟨[]⟩).map
      (fun PDI => PDI.Draws.length) = some 1 ∧
    (GetDynamicMeshElements exampleExternals scenarioBMesh (exampleProxy [0] true)
      [⟨plainFamily, 0⟩] plainFamily 1 FMeshElementCollector.empty).map
      (fun Collector => Collector.Meshes.length) = some 1 :=
  ⟨rfl, rfl, rfl, rfl, rfl, rfl⟩

end RuntimeMesh
